import Mathlib

/-!
Shallow embedding of `pympc/plot.py`.

Each of the six plotting functions of the module is modelled as a function
that returns, in an error monad, the sequence of drawing calls it issues to
the matplotlib backend.  Numeric values are modelled by `ℚ` (the module does
only exact-looking arithmetic: products `N*h` and `linspace` grids), vectors
by `List ℚ` and matrices by their list of rows.  Python runtime errors that
the module can produce are modelled explicitly: `ValueError` raised by the
module's own dimension checks, by `max()`/`min()` on empty sequences and by
numpy's `dot` on misaligned operands (message "shapes not aligned"),
`IndexError` from list/array indexing, and `UnboundLocalError` from reading
a local variable that was never assigned (`bound_plot` when a bounds
argument is an empty list).  Matplotlib-style `**kwargs` pass-through is opaque to the claims
and is not recorded in the trace; `np.random.rand(3)`, which reads and
advances the global numpy random state, is modelled by an explicit stream
`rng : ℕ → List ℚ` giving the colour drawn at each call.
-/

namespace PympcPlot

/-- Python runtime errors that functions of `plot.py` can raise. -/
inductive PyErr : Type
  | valueError (msg : String)
  | indexError
  | unboundLocal (nm : String)
deriving DecidableEq, Repr

deriving instance DecidableEq for Except

/-- A fallible Python computation: either a result or a raised error. -/
abbrev PyM (α : Type) : Type := Except PyErr α

/-- Python list indexing `l[i]` (nonnegative index): raises `IndexError`
when out of range. -/
def pyGet {α : Type} (l : List α) (i : ℕ) : PyM α :=
  match l[i]? with
  | some v => Except.ok v
  | none => Except.error PyErr.indexError

/-- Python built-in `max` on a list: raises `ValueError` on an empty list. -/
def pyMax (l : List ℚ) : PyM ℚ :=
  match l with
  | [] => Except.error (PyErr.valueError "max() arg is an empty sequence")
  | a :: r => Except.ok (r.foldl max a)

/-- Python built-in `min` on a list: raises `ValueError` on an empty list. -/
def pyMin (l : List ℚ) : PyM ℚ :=
  match l with
  | [] => Except.error (PyErr.valueError "min() arg is an empty sequence")
  | a :: r => Except.ok (r.foldl min a)

/-- `numpy.linspace a b num`: `num` evenly spaced points from `a` to `b`
inclusive.  For `num = 1` the `ℚ`-convention `q / 0 = 0` yields `[a]`,
matching numpy; for `num = 0` it yields `[]`. -/
def linspace (a b : ℚ) (num : ℕ) : List ℚ :=
  (List.range num).map (fun k => a + (b - a) * k / ((num : ℚ) - 1))

/-- Monadic map over a list, modelling a Python list comprehension or a
`for` loop collecting the drawing calls of each iteration: the first raised
error aborts the whole computation. -/
def mapME {α β : Type} (f : α → PyM β) : List α → PyM (List β)
  | [] => Except.ok []
  | a :: l => do
    let b ← f a
    let r ← mapME f l
    Except.ok (b :: r)

/-- `C.dot v` for a matrix `C` (list of rows) and a vector `v`: numpy raises
`ValueError("shapes ... not aligned ...")` when the operands are
misaligned. -/
def npDot (C : List (List ℚ)) (v : List ℚ) : PyM (List ℚ) :=
  if C.all (fun row => row.length == v.length) then
    Except.ok (C.map (fun row => (List.zipWith (fun a b => a * b) row v).sum))
  else Except.error (PyErr.valueError "shapes not aligned")

/-- `A.shape[1]` of a rectangular 2d numpy array represented by its rows:
the length of the first row. -/
def npShape1 (A : List (List ℚ)) : ℕ := (A.headD []).length

/-- Polyhedron object as consumed by `plot.py`.  Modelled from the spec:
the Polyhedron class lives in a part of the repository that is not included
here; only the attributes `plot.py` reads (`A`, `b`, `center`, `vertices`,
and a `plot` method that issues one drawing call) are represented. -/
structure Polyhedron : Type where
  A : List (List ℚ)
  b : List ℚ
  center : List ℚ
  vertices : List (List ℚ)
deriving DecidableEq, Repr

/-- Critical region of an explicit MPC solution.  Modelled from the spec:
only the attributes read by `plot.py` (`polyhedron`, `active_set`) are
represented. -/
structure CriticalRegion : Type where
  polyhedron : Polyhedron
  active_set : List ℕ
deriving DecidableEq, Repr

/-- Explicit solution of a multiparametric quadratic program.  Modelled
from the spec: only the attributes read by `plot.py` are represented, the
value function `V` as an opaque total function on state vectors. -/
structure ExplicitSolution : Type where
  critical_regions : List CriticalRegion
  V : List ℚ → ℚ

/-- Multiparametric quadratic program.  Modelled from the spec: `plot.py`
only calls `get_feasible_set`, which returns a polyhedron. -/
structure MultiParametricQuadraticProgram : Type where
  feasible_set : Polyhedron

/-- `mpqp.get_feasible_set()`. -/
def MultiParametricQuadraticProgram.get_feasible_set
    (m : MultiParametricQuadraticProgram) : Polyhedron := m.feasible_set

/-- One drawing call issued to the plotting backend. -/
inductive PlotEvent : Type
  | linePlot (xs ys : List ℚ) (style : String) (label : Option String)
  | stepPlot (xs ys : List ℚ) (style : String)
  | scatterEv (x y : ℚ)
  | textEv (x y : ℚ) (s : String)
  | subplotEv (rows cols idx : ℕ)
  | xlabelEv (s : String)
  | ylabelEv (s : String)
  | xlimEv (lo hi : ℚ)
  | legendEv (labels : List String) (loc : ℕ)
  | polyPlot (p : Polyhedron) (facecolor : Option (List ℚ))
  | contourEv (X Y Z : List (List ℚ))
  | colorbarEv
  | titleEv (s : String)
deriving DecidableEq, Repr

/-- Body of the trajectory loop of `plot_state_space_trajectory` at index
`t`: at `t == 0` an extra labelled segment through `x[0]`, `x[1]` is drawn
first, then the unlabelled segment from `x[t]` to `x[t+1]`. -/
def sspIter (x : List (List ℚ)) (dim : List ℕ) (label : Option String)
    (t : ℕ) : PyM (List PlotEvent) :=
  (if t = 0 then do
    let x0 ← pyGet x 0
    let x1 ← pyGet x 1
    let d0 ← pyGet dim 0
    let d1 ← pyGet dim 1
    let a0 ← pyGet x0 d0
    let a1 ← pyGet x1 d0
    let b0 ← pyGet x0 d1
    let b1 ← pyGet x1 d1
    Except.ok [PlotEvent.linePlot [a0, a1] [b0, b1] "" label]
   else Except.ok ([] : List PlotEvent)) >>= fun first => do
  let d0 ← pyGet dim 0
  let d1 ← pyGet dim 1
  let xt ← pyGet x t
  let xt1 ← pyGet x (t + 1)
  let a0 ← pyGet xt d0
  let a1 ← pyGet xt1 d0
  let b0 ← pyGet xt d1
  let b1 ← pyGet xt1 d1
  Except.ok (first ++ [PlotEvent.linePlot [a0, a1] [b0, b1] "" none])

/-- `plot_state_space_trajectory(x, dim, text, label)`: checks
`len(dim) != 2`, draws the trajectory segments, the optional `$x(t)$` text
annotations (always at components 0 and 1 of the state), scatters the
initial condition, and sets the axis labels from `dim`. -/
def plot_state_space_trajectory (x : List (List ℚ)) (dim : List ℕ)
    (text : Bool) (label : Option String) : PyM (List PlotEvent) := do
  if dim.length ≠ 2 then
    Except.error (PyErr.valueError "can plot only 2-dimensional trajectories.")
  else do
    let trajEvs ← mapME (sspIter x dim label) (List.range (x.length - 1))
    let textEvs ← mapME (fun t => do
      if text then do
        let xt ← pyGet x t
        let p0 ← pyGet xt 0
        let p1 ← pyGet xt 1
        Except.ok [PlotEvent.textEv p0 p1 ("$x(" ++ toString t ++ ")$")]
      else Except.ok ([] : List PlotEvent)) (List.range x.length)
    let x0 ← pyGet x 0
    let d0 ← pyGet dim 0
    let d1 ← pyGet dim 1
    let s0 ← pyGet x0 d0
    let s1 ← pyGet x0 d1
    Except.ok (trajEvs.flatten ++ textEvs.flatten
      ++ [PlotEvent.scatterEv s0 s1,
          PlotEvent.xlabelEv ("$x_\x7b" ++ toString (d0 + 1) ++ "\x7d$"),
          PlotEvent.ylabelEv ("$x_\x7b" ++ toString (d1 + 1) ++ "\x7d$")])

/-- Body of the subplot loop of `plot_input_sequence` at input component
`i`: the stepped input series (first value duplicated), the stepped constant
bound lines when bounds were supplied, ylabel, xlim and, on the first
subplot only, the legend.  Reading `bound_plot` in the legend branch when
the bounds loop never ran raises `UnboundLocalError`. -/
def inputIter (u : List (List ℚ)) (u_bounds : Option (List (List ℚ)))
    (N nu : ℕ) (t : List ℚ) (h : ℚ) (i : ℕ) : PyM (List PlotEvent) :=
  mapME (fun k => do
    let uk ← pyGet u k
    pyGet uk i) (List.range N) >>= fun u_i_sequence =>
  pyGet u_i_sequence 0 >>= fun s0 =>
  (match u_bounds with
   | none => Except.ok (([] : List PlotEvent), false)
   | some bs =>
     mapME (fun bound => do
       let bi ← pyGet bound i
       Except.ok (PlotEvent.stepPlot t (List.replicate t.length bi) "r")) bs
       >>= fun evs =>
     Except.ok (evs, !bs.isEmpty)) >>= fun boundsPart =>
  (if i = 0 then
    match u_bounds with
    | some _ =>
      if boundsPart.2 then
        Except.ok [PlotEvent.legendEv ["Optimal control", "Control bounds"] 1]
      else Except.error (PyErr.unboundLocal "bound_plot")
    | none => Except.ok [PlotEvent.legendEv ["Optimal control"] 1]
   else Except.ok ([] : List PlotEvent)) >>= fun legendPart =>
  Except.ok ([PlotEvent.subplotEv nu 1 (i + 1),
              PlotEvent.stepPlot t (s0 :: u_i_sequence) "b"]
             ++ boundsPart.1
             ++ [PlotEvent.ylabelEv ("$u_\x7b" ++ toString (i + 1) ++ "\x7d$"),
                 PlotEvent.xlimEv 0 ((N : ℚ) * h)]
             ++ legendPart)

/-- `plot_input_sequence(u, h, u_bounds)`: `nu = u[0].shape[0]`,
`N = len(u)`, time axis `linspace(0, N*h, N+1)`, one subplot per input
component, final xlabel `$t$`. -/
def plot_input_sequence (u : List (List ℚ)) (h : ℚ)
    (u_bounds : Option (List (List ℚ))) : PyM (List PlotEvent) := do
  let u0 ← pyGet u 0
  let nu := u0.length
  let N := u.length
  let t := linspace 0 ((N : ℚ) * h) (N + 1)
  let evss ← mapME (inputIter u u_bounds N nu t h) (List.range nu)
  Except.ok (evss.flatten ++ [PlotEvent.xlabelEv "$t$"])

/-- Body of the subplot loop of `plot_state_trajectory` at state component
`i`: the plotted state series over `range(N+1)`, the stepped bound lines,
ylabel, xlim and, on the first subplot only, the legend. -/
def stateIter (x : List (List ℚ)) (x_bounds : Option (List (List ℚ)))
    (N nx : ℕ) (t : List ℚ) (h : ℚ) (i : ℕ) : PyM (List PlotEvent) :=
  mapME (fun k => do
    let xk ← pyGet x k
    pyGet xk i) (List.range (N + 1)) >>= fun x_i_trajectory =>
  (match x_bounds with
   | none => Except.ok (([] : List PlotEvent), false)
   | some bs =>
     mapME (fun bound => do
       let bi ← pyGet bound i
       Except.ok (PlotEvent.stepPlot t (List.replicate t.length bi) "r")) bs
       >>= fun evs =>
     Except.ok (evs, !bs.isEmpty)) >>= fun boundsPart =>
  (if i = 0 then
    match x_bounds with
    | some _ =>
      if boundsPart.2 then
        Except.ok [PlotEvent.legendEv ["Optimal trajectory", "State bounds"] 1]
      else Except.error (PyErr.unboundLocal "bound_plot")
    | none => Except.ok [PlotEvent.legendEv ["Optimal trajectory"] 1]
   else Except.ok ([] : List PlotEvent)) >>= fun legendPart =>
  Except.ok ([PlotEvent.subplotEv nx 1 (i + 1),
              PlotEvent.linePlot t x_i_trajectory "b" none]
             ++ boundsPart.1
             ++ [PlotEvent.ylabelEv ("$x_\x7b" ++ toString (i + 1) ++ "\x7d$"),
                 PlotEvent.xlimEv 0 ((N : ℚ) * h)]
             ++ legendPart)

/-- `plot_state_trajectory(x, h, x_bounds)`: `nx = x[0].shape[0]`,
`N = len(x) - 1`, time axis `linspace(0, N*h, N+1)`, one subplot per state
component, final xlabel `$t$`. -/
def plot_state_trajectory (x : List (List ℚ)) (h : ℚ)
    (x_bounds : Option (List (List ℚ))) : PyM (List PlotEvent) := do
  let x0 ← pyGet x 0
  let nx := x0.length
  let N := x.length - 1
  let t := linspace 0 ((N : ℚ) * h) (N + 1)
  let evss ← mapME (stateIter x x_bounds N nx t h) (List.range nx)
  Except.ok (evss.flatten ++ [PlotEvent.xlabelEv "$t$"])

/-- Body of the subplot loop of `plot_output_trajectory` at output
component `i`: the plotted output series over `range(N+1)`, the stepped
bound lines, ylabel, xlim and, on the first subplot only, the legend.
`N = len(x) - 1` is a Python int, so it is `-1` for an empty `x` and the
loop range is empty then. -/
def outputIter (y : List (List ℚ)) (y_bounds : Option (List (List ℚ)))
    (N : ℤ) (ny : ℕ) (t : List ℚ) (h : ℚ) (i : ℕ) : PyM (List PlotEvent) :=
  mapME (fun k => do
    let yk ← pyGet y k
    pyGet yk i) (List.range (N + 1).toNat) >>= fun y_i_trajectory =>
  (match y_bounds with
   | none => Except.ok (([] : List PlotEvent), false)
   | some bs =>
     mapME (fun bound => do
       let bi ← pyGet bound i
       Except.ok (PlotEvent.stepPlot t (List.replicate t.length bi) "r")) bs
       >>= fun evs =>
     Except.ok (evs, !bs.isEmpty)) >>= fun boundsPart =>
  (if i = 0 then
    match y_bounds with
    | some _ =>
      if boundsPart.2 then
        Except.ok [PlotEvent.legendEv ["Optimal trajectory", "Output bounds"] 1]
      else Except.error (PyErr.unboundLocal "bound_plot")
    | none => Except.ok [PlotEvent.legendEv ["Optimal trajectory"] 1]
   else Except.ok ([] : List PlotEvent)) >>= fun legendPart =>
  Except.ok ([PlotEvent.subplotEv ny 1 (i + 1),
              PlotEvent.linePlot t y_i_trajectory "b" none]
             ++ boundsPart.1
             ++ [PlotEvent.ylabelEv ("$y_\x7b" ++ toString (i + 1) ++ "\x7d$"),
                 PlotEvent.xlimEv 0 ((N : ℚ) * h)]
             ++ legendPart)

/-- `plot_output_trajectory(C, x, h, y_bounds)`: first applies the linear
transformation `y = [C.dot(x_t) for x_t in x]`, then `ny = C.shape[0]`
subplots over the time axis `linspace(0, N*h, N+1)` with `N = len(x) - 1`,
final xlabel `$t$`. -/
def plot_output_trajectory (C : List (List ℚ)) (x : List (List ℚ)) (h : ℚ)
    (y_bounds : Option (List (List ℚ))) : PyM (List PlotEvent) := do
  let y ← mapME (npDot C) x
  let ny := C.length
  let N : ℤ := (x.length : ℤ) - 1
  let t := linspace 0 ((N : ℚ) * h) (N + 1).toNat
  let evss ← mapME (outputIter y y_bounds N ny t h) (List.range ny)
  Except.ok (evss.flatten ++ [PlotEvent.xlabelEv "$t$"])

/-- Body of the critical-region loop of `plot_partition_explicit_solution`:
`jcr` is the region with its position, whose colour `rng jcr.1` is drawn
from the global numpy random state. -/
def partitionIter (print_active_set : Bool) (rng : ℕ → List ℚ)
    (jcr : ℕ × CriticalRegion) : PyM (List PlotEvent) := do
  let base := [PlotEvent.polyPlot jcr.2.polyhedron (some (rng jcr.1))]
  if print_active_set then do
    let c0 ← pyGet jcr.2.polyhedron.center 0
    let c1 ← pyGet jcr.2.polyhedron.center 1
    Except.ok (base ++ [PlotEvent.textEv c0 c1 (toString jcr.2.active_set)])
  else Except.ok base

/-- `plot_partition_explicit_solution(explicit_solution, print_active_set)`:
checks that the polyhedron of the *first* critical region has 2 columns,
then plots every critical region with a colour drawn from the global numpy
random state (the stream `rng`, indexed by the position of the region), and
optionally prints the active set at the region's center. -/
def plot_partition_explicit_solution (explicit_solution : ExplicitSolution)
    (print_active_set : Bool) (rng : ℕ → List ℚ) : PyM (List PlotEvent) := do
  let cr0 ← pyGet explicit_solution.critical_regions 0
  if npShape1 cr0.polyhedron.A ≠ 2 then
    Except.error (PyErr.valueError "can plot only 2-dimensional partitions.")
  else do
    let evss ← mapME (partitionIter print_active_set rng)
      explicit_solution.critical_regions.enum
    Except.ok evss.flatten

/-- `plot_value_function_mpqp(mpqp, explicit_solution, resolution)`: checks
that the polyhedron of the *first* critical region has 2 columns, builds the
bounding box of the feasible set's vertices, evaluates `V` on a
`resolution × resolution` grid, and plots the feasible set, the contour plot
with its colorbar and the title. -/
def plot_value_function_mpqp (mpqp : MultiParametricQuadraticProgram)
    (explicit_solution : ExplicitSolution) (resolution : ℕ) :
    PyM (List PlotEvent) := do
  let cr0 ← pyGet explicit_solution.critical_regions 0
  if npShape1 cr0.polyhedron.A ≠ 2 then
    Except.error (PyErr.valueError "can plot only 2-dimensional partitions.")
  else do
    let feasible_set := mpqp.get_feasible_set
    let xs0 ← mapME (fun v => pyGet v 0) feasible_set.vertices
    let x_max ← pyMax xs0
    let x_min ← pyMin xs0
    let ys0 ← mapME (fun v => pyGet v 1) feasible_set.vertices
    let y_max ← pyMax ys0
    let y_min ← pyMin ys0
    let x := linspace x_min x_max resolution
    let y := linspace y_min y_max resolution
    let X := y.map (fun _ => x)
    let Y := y.map (fun yv => x.map (fun _ => yv))
    let zs := (List.zip X.flatten Y.flatten).map
      (fun p => explicit_solution.V [p.1, p.2])
    let Z := (List.range y.length).map
      (fun r => (zs.drop (r * x.length)).take x.length)
    Except.ok [PlotEvent.polyPlot feasible_set none,
               PlotEvent.contourEv X Y Z,
               PlotEvent.colorbarEv,
               PlotEvent.titleEv "$V^*(x)$"]

/-! ### Basic lemmas about the Python primitives -/

theorem pyGet_ok {α : Type} (l : List α) (i : ℕ) (d : α) (h : i < l.length) :
    pyGet l i = Except.ok (l.getD i d) := by
  unfold pyGet
  rw [List.getElem?_eq_getElem h, List.getD_eq_getElem l d h]

theorem getD_mem {α : Type} (l : List α) (i : ℕ) (d : α) (h : i < l.length) :
    l.getD i d ∈ l := by
  rw [List.getD_eq_getElem l d h]
  exact List.getElem_mem h

theorem bind_ok {α β : Type} (a : α) (f : α → PyM β) :
    (Except.ok a : PyM α) >>= f = f a := rfl

theorem bind_err {α β : Type} (e : PyErr) (f : α → PyM β) :
    (Except.error e : PyM α) >>= f = Except.error e := rfl

theorem mapME_ok {α β : Type} (f : α → PyM β) (g : α → β) (l : List α)
    (h : ∀ a ∈ l, f a = Except.ok (g a)) :
    mapME f l = Except.ok (l.map g) := by
  induction l with
  | nil => rfl
  | cons a l ih =>
    unfold mapME
    rw [h a (List.mem_cons_self a l), bind_ok,
      ih (fun b hb => h b (List.mem_cons_of_mem a hb)), bind_ok]
    rfl

/-- The computation `m` does not raise a `ValueError`. -/
def NoVE {α : Type} (m : PyM α) : Prop :=
  ∀ msg, m ≠ Except.error (PyErr.valueError msg)

theorem noVE_ok {α : Type} (a : α) : NoVE (Except.ok a) := by
  intro msg hc
  cases hc

theorem noVE_err_idx {α : Type} :
    NoVE (Except.error PyErr.indexError : PyM α) := by
  intro msg hc
  cases hc

theorem noVE_err_unbound {α : Type} (nm : String) :
    NoVE (Except.error (PyErr.unboundLocal nm) : PyM α) := by
  intro msg hc
  cases hc

theorem noVE_pyGet {α : Type} (l : List α) (i : ℕ) : NoVE (pyGet l i) := by
  unfold pyGet
  cases l[i]? with
  | none => exact noVE_err_idx
  | some v => exact noVE_ok v

theorem noVE_bind {α β : Type} (m : PyM α) (f : α → PyM β)
    (h1 : NoVE m) (h2 : ∀ a, NoVE (f a)) : NoVE (m >>= f) := by
  cases m with
  | error e =>
    intro msg
    rw [bind_err]
    intro hc
    injection hc with he
    exact h1 msg (by rw [he])
  | ok a => exact h2 a

theorem noVE_mapME {α β : Type} (f : α → PyM β) (l : List α)
    (h : ∀ a ∈ l, NoVE (f a)) : NoVE (mapME f l) := by
  induction l with
  | nil => exact noVE_ok []
  | cons a l ih =>
    unfold mapME
    refine noVE_bind _ _ (h a (List.mem_cons_self a l)) (fun b => ?_)
    refine noVE_bind _ _ (ih (fun c hc => h c (List.mem_cons_of_mem a hc))) (fun r => ?_)
    exact noVE_ok _

/-- `linspace 0 (N*h) (N+1)` is exactly the arithmetic grid
`0, h, 2h, ..., N*h`: `N+1` points spaced by `h`. -/
theorem linspace_grid (h : ℚ) (N : ℕ) :
    linspace 0 ((N : ℚ) * h) (N + 1)
      = (List.range (N + 1)).map (fun k => (k : ℚ) * h) := by
  unfold linspace
  rcases N with _ | M
  · simp [List.range_succ]
  · congr 1
    funext k
    have hN : ((M : ℚ) + 1) ≠ 0 := by positivity
    push_cast
    field_simp
    ring

theorem filterMap_flatten {α β : Type} (f : α → Option β) (l : List (List α)) :
    l.flatten.filterMap f = (l.map (fun s => s.filterMap f)).flatten := by
  induction l with
  | nil => rfl
  | cons a l ih =>
    simp only [List.flatten_cons, List.map_cons, List.filterMap_append, ih]

/-! ### Projections of the drawing-call trace -/

def xlimOf : PlotEvent → Option (ℚ × ℚ)
  | PlotEvent.xlimEv lo hi => some (lo, hi)
  | _ => none

def ylabelOf : PlotEvent → Option String
  | PlotEvent.ylabelEv s => some s
  | _ => none

def xlabelOf : PlotEvent → Option String
  | PlotEvent.xlabelEv s => some s
  | _ => none

def legendOf : PlotEvent → Option (List String)
  | PlotEvent.legendEv ls _ => some ls
  | _ => none

def textOf : PlotEvent → Option (ℚ × ℚ × String)
  | PlotEvent.textEv a b s => some (a, b, s)
  | _ => none

def subplotOf : PlotEvent → Option (ℕ × ℕ × ℕ)
  | PlotEvent.subplotEv r c i => some (r, c, i)
  | _ => none

/-- The stepped series drawn in style `'b'` (the plotted input sequence). -/
def stepBOf : PlotEvent → Option (List ℚ × List ℚ)
  | PlotEvent.stepPlot xs ys s => if s = "b" then some (xs, ys) else none
  | _ => none

/-- The line series drawn in style `'b'` (the plotted state/output series). -/
def lineBOf : PlotEvent → Option (List ℚ × List ℚ)
  | PlotEvent.linePlot xs ys s _ => if s = "b" then some (xs, ys) else none
  | _ => none

/-! ### Closed forms of the successful traces -/

/-- `v[k][i]` as a total function (valid when the indices are in range). -/
def entry (v : List (List ℚ)) (k i : ℕ) : ℚ := (v.getD k []).getD i 0

/-- The Python comprehension `[v[k][i] for k in range N]` as a total
function (valid when all indices are in range). -/
def seqAt (v : List (List ℚ)) (N i : ℕ) : List ℚ :=
  (List.range N).map (fun k => entry v k i)

/-- The stepped bound lines drawn by one subplot iteration. -/
def boundEvs (bs : List (List ℚ)) (t : List ℚ) (i : ℕ) : List PlotEvent :=
  bs.map (fun bound =>
    PlotEvent.stepPlot t (List.replicate t.length (bound.getD i 0)) "r")

/-- The stepped bound lines, for an optional bounds argument. -/
def boundsEvsOpt (bnds : Option (List (List ℚ))) (t : List ℚ) (i : ℕ) :
    List PlotEvent :=
  match bnds with
  | none => []
  | some bs => boundEvs bs t i

/-- The legend drawn by one subplot iteration: only on the first subplot,
with two entries when a bounds argument was supplied and one otherwise. -/
def legendEvs (bnds : Option (List (List ℚ)))
    (seriesLabel boundsLabel : String) (i : ℕ) : List PlotEvent :=
  if i = 0 then
    match bnds with
    | some _ => [PlotEvent.legendEv [seriesLabel, boundsLabel] 1]
    | none => [PlotEvent.legendEv [seriesLabel] 1]
  else []

/-- Well-formedness of a bounds argument for `n` plotted components:
either absent, or a non-empty list of bound vectors of length at least
`n` (the function's docstring asks for the pair of lower and upper
bounds). -/
def BoundsWF (bnds : Option (List (List ℚ))) (n : ℕ) : Prop :=
  match bnds with
  | none => True
  | some bs => bs ≠ [] ∧ ∀ b ∈ bs, n ≤ b.length

instance (bnds : Option (List (List ℚ))) (n : ℕ) :
    Decidable (BoundsWF bnds n) := by
  unfold BoundsWF
  cases bnds <;> infer_instance

theorem getD_map_range {β : Type} (g : ℕ → β) (N : ℕ) (hN : 0 < N) (d : β) :
    ((List.range N).map g).getD 0 d = g 0 := by
  rcases N with _ | M
  · omega
  · rw [List.range_succ_eq_map]
    rfl

theorem boundsLoop_ok (bs : List (List ℚ)) (t : List ℚ) (i n : ℕ)
    (hi : i < n) (hlen : ∀ b ∈ bs, n ≤ b.length) :
    mapME (fun bound => do
      let bi ← pyGet bound i
      Except.ok (PlotEvent.stepPlot t (List.replicate t.length bi) "r")) bs
      = Except.ok (boundEvs bs t i) := by
  apply mapME_ok
  intro b hb
  rw [pyGet_ok b i 0 (lt_of_lt_of_le hi (hlen b hb)), bind_ok]

/-- The drawing calls of one subplot iteration of `plot_input_sequence`. -/
def inputIterTrace (u : List (List ℚ)) (bnds : Option (List (List ℚ)))
    (N nu : ℕ) (t : List ℚ) (h : ℚ) (i : ℕ) : List PlotEvent :=
  [PlotEvent.subplotEv nu 1 (i + 1),
   PlotEvent.stepPlot t (entry u 0 i :: seqAt u N i) "b"]
  ++ boundsEvsOpt bnds t i
  ++ [PlotEvent.ylabelEv ("$u_\x7b" ++ toString (i + 1) ++ "\x7d$"),
      PlotEvent.xlimEv 0 ((N : ℚ) * h)]
  ++ legendEvs bnds "Optimal control" "Control bounds" i

theorem inputIter_ok (u : List (List ℚ)) (bnds : Option (List (List ℚ)))
    (nu : ℕ) (t : List ℚ) (h : ℚ) (i : ℕ)
    (hNpos : 0 < u.length)
    (hrow : ∀ row ∈ u, nu ≤ row.length)
    (hb : BoundsWF bnds nu)
    (hi : i < nu) :
    inputIter u bnds u.length nu t h i
      = Except.ok (inputIterTrace u bnds u.length nu t h i) := by
  have hseq : mapME (fun k => do
      let uk ← pyGet u k
      pyGet uk i) (List.range u.length)
      = Except.ok (seqAt u u.length i) := by
    unfold seqAt
    apply mapME_ok
    intro k hk
    rw [List.mem_range] at hk
    rw [pyGet_ok u k [] hk, bind_ok]
    exact pyGet_ok _ i 0 (lt_of_lt_of_le hi (hrow _ (getD_mem u k [] hk)))
  have hs0 : pyGet (seqAt u u.length i) 0 = Except.ok (entry u 0 i) := by
    unfold seqAt entry
    rw [pyGet_ok _ 0 0 (by simpa using hNpos), getD_map_range _ _ hNpos]
  unfold inputIter
  cases bnds with
  | none =>
    by_cases hi0 : i = 0
    · subst hi0
      simp [hseq, hs0, bind_ok, inputIterTrace, boundsEvsOpt, legendEvs]
    · simp [hseq, hs0, bind_ok, inputIterTrace, boundsEvsOpt, legendEvs, hi0]
  | some bs =>
    obtain ⟨hbs, hblen⟩ := hb
    have hloop := boundsLoop_ok bs t i nu hi hblen
    have hne : bs.isEmpty = false := by
      cases bs
      · exact absurd rfl hbs
      · rfl
    by_cases hi0 : i = 0
    · subst hi0
      simp [hseq, hs0, hloop, hne, bind_ok, inputIterTrace, boundsEvsOpt, legendEvs]
    · simp [hseq, hs0, hloop, hne, bind_ok, inputIterTrace, boundsEvsOpt,
        legendEvs, hi0]

/-- The full trace of a successful `plot_input_sequence` run. -/
def inputTrace (u : List (List ℚ)) (h : ℚ)
    (bnds : Option (List (List ℚ))) : List PlotEvent :=
  ((List.range (u.getD 0 []).length).map
    (inputIterTrace u bnds u.length (u.getD 0 []).length
      (linspace 0 ((u.length : ℚ) * h) (u.length + 1)) h)).flatten
  ++ [PlotEvent.xlabelEv "$t$"]

/-- On a non-empty input sequence whose vectors all have at least the
dimension of the first one, and with a well-formed bounds argument,
`plot_input_sequence` succeeds and issues exactly the closed-form trace. -/
theorem plot_input_sequence_ok (u0 : List ℚ) (rest : List (List ℚ)) (h : ℚ)
    (bnds : Option (List (List ℚ)))
    (hrow : ∀ row ∈ u0 :: rest, u0.length ≤ row.length)
    (hb : BoundsWF bnds u0.length) :
    plot_input_sequence (u0 :: rest) h bnds
      = Except.ok (inputTrace (u0 :: rest) h bnds) := by
  have h0 : pyGet (u0 :: rest) 0 = Except.ok u0 := by
    simp [pyGet]
  have hmap : mapME (inputIter (u0 :: rest) bnds (u0 :: rest).length u0.length
      (linspace 0 (((u0 :: rest).length : ℚ) * h) ((u0 :: rest).length + 1)) h)
      (List.range u0.length)
      = Except.ok ((List.range u0.length).map
        (inputIterTrace (u0 :: rest) bnds (u0 :: rest).length u0.length
          (linspace 0 (((u0 :: rest).length : ℚ) * h) ((u0 :: rest).length + 1)) h)) := by
    apply mapME_ok
    intro i hi
    rw [List.mem_range] at hi
    exact inputIter_ok _ bnds u0.length _ h i (by simp) hrow hb hi
  unfold plot_input_sequence
  simp only [h0, bind_ok]
  simp only [hmap, bind_ok]
  rfl

/-- The drawing calls of one subplot iteration of `plot_state_trajectory`. -/
def stateIterTrace (x : List (List ℚ)) (bnds : Option (List (List ℚ)))
    (N nx : ℕ) (t : List ℚ) (h : ℚ) (i : ℕ) : List PlotEvent :=
  [PlotEvent.subplotEv nx 1 (i + 1),
   PlotEvent.linePlot t (seqAt x (N + 1) i) "b" none]
  ++ boundsEvsOpt bnds t i
  ++ [PlotEvent.ylabelEv ("$x_\x7b" ++ toString (i + 1) ++ "\x7d$"),
      PlotEvent.xlimEv 0 ((N : ℚ) * h)]
  ++ legendEvs bnds "Optimal trajectory" "State bounds" i

theorem stateIter_ok (x : List (List ℚ)) (bnds : Option (List (List ℚ)))
    (N nx : ℕ) (t : List ℚ) (h : ℚ) (i : ℕ)
    (hNlen : N + 1 = x.length)
    (hrow : ∀ row ∈ x, nx ≤ row.length)
    (hb : BoundsWF bnds nx)
    (hi : i < nx) :
    stateIter x bnds N nx t h i
      = Except.ok (stateIterTrace x bnds N nx t h i) := by
  have hseq : mapME (fun k => do
      let xk ← pyGet x k
      pyGet xk i) (List.range (N + 1))
      = Except.ok (seqAt x (N + 1) i) := by
    unfold seqAt
    apply mapME_ok
    intro k hk
    rw [List.mem_range] at hk
    have hk2 : k < x.length := by omega
    rw [pyGet_ok x k [] hk2, bind_ok]
    exact pyGet_ok _ i 0 (lt_of_lt_of_le hi (hrow _ (getD_mem x k [] hk2)))
  unfold stateIter
  cases bnds with
  | none =>
    by_cases hi0 : i = 0
    · subst hi0
      simp [hseq, bind_ok, stateIterTrace, boundsEvsOpt, legendEvs]
    · simp [hseq, bind_ok, stateIterTrace, boundsEvsOpt, legendEvs, hi0]
  | some bs =>
    obtain ⟨hbs, hblen⟩ := hb
    have hloop := boundsLoop_ok bs t i nx hi hblen
    have hne : bs.isEmpty = false := by
      cases bs
      · exact absurd rfl hbs
      · rfl
    by_cases hi0 : i = 0
    · subst hi0
      simp [hseq, hloop, hne, bind_ok, stateIterTrace, boundsEvsOpt, legendEvs]
    · simp [hseq, hloop, hne, bind_ok, stateIterTrace, boundsEvsOpt,
        legendEvs, hi0]

/-- The full trace of a successful `plot_state_trajectory` run. -/
def stateTrace (x : List (List ℚ)) (h : ℚ)
    (bnds : Option (List (List ℚ))) : List PlotEvent :=
  ((List.range (x.getD 0 []).length).map
    (stateIterTrace x bnds (x.length - 1) (x.getD 0 []).length
      (linspace 0 (((x.length - 1 : ℕ) : ℚ) * h) ((x.length - 1) + 1)) h)).flatten
  ++ [PlotEvent.xlabelEv "$t$"]

/-- On a non-empty state sequence whose vectors all have at least the
dimension of the first one, and with a well-formed bounds argument,
`plot_state_trajectory` succeeds and issues exactly the closed-form
trace. -/
theorem plot_state_trajectory_ok (x0 : List ℚ) (rest : List (List ℚ)) (h : ℚ)
    (bnds : Option (List (List ℚ)))
    (hrow : ∀ row ∈ x0 :: rest, x0.length ≤ row.length)
    (hb : BoundsWF bnds x0.length) :
    plot_state_trajectory (x0 :: rest) h bnds
      = Except.ok (stateTrace (x0 :: rest) h bnds) := by
  have h0 : pyGet (x0 :: rest) 0 = Except.ok x0 := by
    simp [pyGet]
  have hmap : mapME (stateIter (x0 :: rest) bnds ((x0 :: rest).length - 1) x0.length
      (linspace 0 ((((x0 :: rest).length - 1 : ℕ) : ℚ) * h) (((x0 :: rest).length - 1) + 1)) h)
      (List.range x0.length)
      = Except.ok ((List.range x0.length).map
        (stateIterTrace (x0 :: rest) bnds ((x0 :: rest).length - 1) x0.length
          (linspace 0 ((((x0 :: rest).length - 1 : ℕ) : ℚ) * h) (((x0 :: rest).length - 1) + 1)) h)) := by
    apply mapME_ok
    intro i hi
    rw [List.mem_range] at hi
    exact stateIter_ok _ bnds _ x0.length _ h i (by simp) hrow hb hi
  unfold plot_state_trajectory
  simp only [h0, bind_ok]
  simp only [hmap, bind_ok]
  rfl

/-- `C.dot v` as a total function (valid when the shapes are aligned). -/
def matVec (C : List (List ℚ)) (v : List ℚ) : List ℚ :=
  C.map (fun row => (List.zipWith (fun a b => a * b) row v).sum)

theorem npDot_ok (C : List (List ℚ)) (v : List ℚ)
    (h : ∀ row ∈ C, row.length = v.length) :
    npDot C v = Except.ok (matVec C v) := by
  unfold npDot matVec
  rw [if_pos]
  rw [List.all_eq_true]
  intro row hrow
  exact beq_iff_eq.mpr (h row hrow)

/-- The drawing calls of one subplot iteration of `plot_output_trajectory`. -/
def outputIterTrace (y : List (List ℚ)) (bnds : Option (List (List ℚ)))
    (N : ℤ) (ny : ℕ) (t : List ℚ) (h : ℚ) (i : ℕ) : List PlotEvent :=
  [PlotEvent.subplotEv ny 1 (i + 1),
   PlotEvent.linePlot t (seqAt y (N + 1).toNat i) "b" none]
  ++ boundsEvsOpt bnds t i
  ++ [PlotEvent.ylabelEv ("$y_\x7b" ++ toString (i + 1) ++ "\x7d$"),
      PlotEvent.xlimEv 0 ((N : ℚ) * h)]
  ++ legendEvs bnds "Optimal trajectory" "Output bounds" i

theorem outputIter_ok (y : List (List ℚ)) (bnds : Option (List (List ℚ)))
    (N : ℤ) (ny : ℕ) (t : List ℚ) (h : ℚ) (i : ℕ)
    (hNlen : (N + 1).toNat = y.length)
    (hrow : ∀ row ∈ y, ny ≤ row.length)
    (hb : BoundsWF bnds ny)
    (hi : i < ny) :
    outputIter y bnds N ny t h i
      = Except.ok (outputIterTrace y bnds N ny t h i) := by
  have hseq : mapME (fun k => do
      let yk ← pyGet y k
      pyGet yk i) (List.range (N + 1).toNat)
      = Except.ok (seqAt y (N + 1).toNat i) := by
    unfold seqAt
    apply mapME_ok
    intro k hk
    rw [List.mem_range] at hk
    have hk2 : k < y.length := by omega
    rw [pyGet_ok y k [] hk2, bind_ok]
    exact pyGet_ok _ i 0 (lt_of_lt_of_le hi (hrow _ (getD_mem y k [] hk2)))
  unfold outputIter
  cases bnds with
  | none =>
    by_cases hi0 : i = 0
    · subst hi0
      simp [hseq, bind_ok, outputIterTrace, boundsEvsOpt, legendEvs]
    · simp [hseq, bind_ok, outputIterTrace, boundsEvsOpt, legendEvs, hi0]
  | some bs =>
    obtain ⟨hbs, hblen⟩ := hb
    have hloop := boundsLoop_ok bs t i ny hi hblen
    have hne : bs.isEmpty = false := by
      cases bs
      · exact absurd rfl hbs
      · rfl
    by_cases hi0 : i = 0
    · subst hi0
      simp [hseq, hloop, hne, bind_ok, outputIterTrace, boundsEvsOpt, legendEvs]
    · simp [hseq, hloop, hne, bind_ok, outputIterTrace, boundsEvsOpt,
        legendEvs, hi0]

/-- The full trace of a successful `plot_output_trajectory` run. -/
def outputTrace (C : List (List ℚ)) (x : List (List ℚ)) (h : ℚ)
    (bnds : Option (List (List ℚ))) : List PlotEvent :=
  ((List.range C.length).map
    (outputIterTrace (x.map (matVec C)) bnds ((x.length : ℤ) - 1) C.length
      (linspace 0 ((((x.length : ℤ) - 1 : ℤ) : ℚ) * h)
        (((x.length : ℤ) - 1) + 1).toNat) h)).flatten
  ++ [PlotEvent.xlabelEv "$t$"]

/-- When the shapes of `C` and of every state vector are aligned and the
bounds argument is well-formed, `plot_output_trajectory` succeeds and
issues exactly the closed-form trace (the state sequence may be empty:
`N = len(x) - 1` is then `-1` and the series loops are empty). -/
theorem plot_output_trajectory_ok (C : List (List ℚ)) (x : List (List ℚ))
    (h : ℚ) (bnds : Option (List (List ℚ)))
    (hdot : ∀ v ∈ x, ∀ row ∈ C, row.length = v.length)
    (hb : BoundsWF bnds C.length) :
    plot_output_trajectory C x h bnds
      = Except.ok (outputTrace C x h bnds) := by
  have hy : mapME (npDot C) x = Except.ok (x.map (matVec C)) := by
    apply mapME_ok
    intro v hv
    exact npDot_ok C v (hdot v hv)
  have hylen : ∀ row ∈ x.map (matVec C), C.length ≤ row.length := by
    intro row hrow
    rw [List.mem_map] at hrow
    obtain ⟨v, hv, rfl⟩ := hrow
    simp [matVec]
  have hmap : mapME (outputIter (x.map (matVec C)) bnds ((x.length : ℤ) - 1) C.length
      (linspace 0 ((((x.length : ℤ) - 1 : ℤ) : ℚ) * h) (((x.length : ℤ) - 1) + 1).toNat) h)
      (List.range C.length)
      = Except.ok ((List.range C.length).map
        (outputIterTrace (x.map (matVec C)) bnds ((x.length : ℤ) - 1) C.length
          (linspace 0 ((((x.length : ℤ) - 1 : ℤ) : ℚ) * h) (((x.length : ℤ) - 1) + 1).toNat) h)) := by
    apply mapME_ok
    intro i hi
    rw [List.mem_range] at hi
    exact outputIter_ok _ bnds _ C.length _ h i (by simp) hylen hb hi
  unfold plot_output_trajectory
  simp only [hy, bind_ok]
  simp only [hmap, bind_ok]
  rfl

theorem pyGet_entry (x : List (List ℚ)) (k j : ℕ)
    (hj : j < (x.getD k []).length) :
    pyGet (x.getD k []) j = Except.ok (entry x k j) :=
  pyGet_ok _ j 0 hj

theorem flatten_map_singleton {α β : Type} (f : α → β) (l : List α) :
    (l.map (fun a => [f a])).flatten = l.map f := by
  induction l with
  | nil => rfl
  | cons a l ih => simp [ih]

/-- The drawing calls of one trajectory-loop iteration of
`plot_state_space_trajectory`. -/
def sspIterTrace (x : List (List ℚ)) (d0 d1 : ℕ) (label : Option String)
    (t : ℕ) : List PlotEvent :=
  (if t = 0 then
    [PlotEvent.linePlot [entry x 0 d0, entry x 1 d0]
      [entry x 0 d1, entry x 1 d1] "" label]
   else [])
  ++ [PlotEvent.linePlot [entry x t d0, entry x (t + 1) d0]
      [entry x t d1, entry x (t + 1) d1] "" none]

theorem sspIter_ok (x : List (List ℚ)) (d0 d1 : ℕ) (label : Option String)
    (t : ℕ) (ht : t + 1 < x.length)
    (hrow : ∀ row ∈ x, d0 < row.length ∧ d1 < row.length) :
    sspIter x [d0, d1] label t
      = Except.ok (sspIterTrace x d0 d1 label t) := by
  have hxlen : 0 < x.length := by omega
  have hd0 : pyGet ([d0, d1] : List ℕ) 0 = Except.ok d0 := by
    simp [pyGet]
  have hd1 : pyGet ([d0, d1] : List ℕ) 1 = Except.ok d1 := by
    simp [pyGet]
  have hx : ∀ k, k < x.length → pyGet x k = Except.ok (x.getD k []) :=
    fun k hk => pyGet_ok x k [] hk
  have he0 : ∀ k, k < x.length →
      pyGet (x.getD k []) d0 = Except.ok (entry x k d0) :=
    fun k hk => pyGet_entry x k d0 (hrow _ (getD_mem x k [] hk)).1
  have he1 : ∀ k, k < x.length →
      pyGet (x.getD k []) d1 = Except.ok (entry x k d1) :=
    fun k hk => pyGet_entry x k d1 (hrow _ (getD_mem x k [] hk)).2
  simp only [List.getD_eq_getElem?_getD] at hx he0 he1
  unfold sspIter
  by_cases ht0 : t = 0
  · subst ht0
    simp [hd0, hd1, hx 0 hxlen, hx 1 ht, he0 0 hxlen, he0 1 ht,
      he1 0 hxlen, he1 1 ht, bind_ok, sspIterTrace]
  · simp [hd0, hd1, hx t (by omega), hx (t + 1) ht, he0 t (by omega),
      he0 (t + 1) ht, he1 t (by omega), he1 (t + 1) ht, bind_ok,
      sspIterTrace, ht0]

/-- The `$x(t)$` text annotations of `plot_state_space_trajectory` when
`text` is set: always at components 0 and 1 of each state vector. -/
def sspTextTrace (x : List (List ℚ)) : List PlotEvent :=
  (List.range x.length).map (fun t =>
    PlotEvent.textEv (entry x t 0) (entry x t 1) ("$x(" ++ toString t ++ ")$"))

/-- The full trace of a successful `plot_state_space_trajectory` run. -/
def sspTrace (x : List (List ℚ)) (d0 d1 : ℕ) (text : Bool)
    (label : Option String) : List PlotEvent :=
  ((List.range (x.length - 1)).map (sspIterTrace x d0 d1 label)).flatten
  ++ (if text then sspTextTrace x else [])
  ++ [PlotEvent.scatterEv (entry x 0 d0) (entry x 0 d1),
      PlotEvent.xlabelEv ("$x_\x7b" ++ toString (d0 + 1) ++ "\x7d$"),
      PlotEvent.ylabelEv ("$x_\x7b" ++ toString (d1 + 1) ++ "\x7d$")]

/-- On a non-empty trajectory whose vectors are long enough for the two
selected components (and for components 0 and 1 when `text` is set),
`plot_state_space_trajectory` succeeds and issues exactly the closed-form
trace. -/
theorem plot_state_space_trajectory_ok (x0 : List ℚ) (rest : List (List ℚ))
    (d0 d1 : ℕ) (text : Bool) (label : Option String)
    (hrow : ∀ row ∈ x0 :: rest,
      d0 < row.length ∧ d1 < row.length ∧ (text = true → 2 ≤ row.length)) :
    plot_state_space_trajectory (x0 :: rest) [d0, d1] text label
      = Except.ok (sspTrace (x0 :: rest) d0 d1 text label) := by
  have hxlen : 0 < (x0 :: rest).length := by simp
  have hd0 : pyGet ([d0, d1] : List ℕ) 0 = Except.ok d0 := by
    simp [pyGet]
  have hd1 : pyGet ([d0, d1] : List ℕ) 1 = Except.ok d1 := by
    simp [pyGet]
  have hx0 : pyGet (x0 :: rest) 0 = Except.ok ((x0 :: rest).getD 0 []) :=
    pyGet_ok _ 0 [] hxlen
  have he0 : pyGet ((x0 :: rest).getD 0 []) d0
      = Except.ok (entry (x0 :: rest) 0 d0) :=
    pyGet_entry _ 0 d0 (hrow _ (getD_mem _ 0 [] hxlen)).1
  have he1 : pyGet ((x0 :: rest).getD 0 []) d1
      = Except.ok (entry (x0 :: rest) 0 d1) :=
    pyGet_entry _ 0 d1 (hrow _ (getD_mem _ 0 [] hxlen)).2.1
  have htraj : mapME (sspIter (x0 :: rest) [d0, d1] label)
      (List.range ((x0 :: rest).length - 1))
      = Except.ok (((List.range ((x0 :: rest).length - 1)).map
        (sspIterTrace (x0 :: rest) d0 d1 label))) := by
    apply mapME_ok
    intro t htr
    rw [List.mem_range] at htr
    exact sspIter_ok _ d0 d1 label t (by omega)
      (fun row hr => ⟨(hrow row hr).1, (hrow row hr).2.1⟩)
  have htext : mapME (fun t => do
      if text then do
        let xt ← pyGet (x0 :: rest) t
        let p0 ← pyGet xt 0
        let p1 ← pyGet xt 1
        Except.ok [PlotEvent.textEv p0 p1 ("$x(" ++ toString t ++ ")$")]
      else Except.ok ([] : List PlotEvent)) (List.range (x0 :: rest).length)
      = Except.ok (if text then
          (List.range (x0 :: rest).length).map (fun t =>
            [PlotEvent.textEv (entry (x0 :: rest) t 0) (entry (x0 :: rest) t 1)
              ("$x(" ++ toString t ++ ")$")])
        else (List.range (x0 :: rest).length).map
          (fun _ => ([] : List PlotEvent))) := by
    cases text with
    | false =>
      simp only [if_neg (Bool.false_ne_true)]
      apply mapME_ok
      intro t htr
      rfl
    | true =>
      simp only [if_pos rfl]
      apply mapME_ok
      intro t htr
      rw [List.mem_range] at htr
      have h2 : 2 ≤ ((x0 :: rest).getD t []).length :=
        (hrow _ (getD_mem _ t [] htr)).2.2 rfl
      have ha := pyGet_ok (x0 :: rest) t [] htr
      have hb0 := pyGet_entry (x0 :: rest) t 0 (by omega)
      have hb1 := pyGet_entry (x0 :: rest) t 1 (by omega)
      simp only [List.getD_eq_getElem?_getD] at ha hb0 hb1
      simp [ha, hb0, hb1, bind_ok]
  unfold plot_state_space_trajectory
  rw [if_neg (by simp : ¬(([d0, d1] : List ℕ).length ≠ 2))]
  simp only [htraj, bind_ok]
  simp only [htext, bind_ok]
  simp only [hx0, bind_ok, hd0, hd1, he0, he1]
  cases text with
  | false =>
    simp [sspTrace]
  | true =>
    simp [sspTrace, sspTextTrace, flatten_map_singleton]

/-! ### Which errors a computation can raise -/

theorem ne_err_ok {α : Type} (a : α) (e : PyErr) :
    (Except.ok a : PyM α) ≠ Except.error e := by
  intro hc
  cases hc

theorem ne_err_bind {α β : Type} (e : PyErr) (m : PyM α) (f : α → PyM β)
    (h1 : m ≠ Except.error e) (h2 : ∀ a, f a ≠ Except.error e) :
    (m >>= f) ≠ Except.error e := by
  cases m with
  | error e2 =>
    rw [bind_err]
    intro hc
    injection hc with he
    exact h1 (by rw [he])
  | ok a => exact h2 a

theorem ne_err_mapME {α β : Type} (e : PyErr) (f : α → PyM β) (l : List α)
    (h : ∀ a ∈ l, f a ≠ Except.error e) : mapME f l ≠ Except.error e := by
  induction l with
  | nil => exact ne_err_ok [] e
  | cons a l ih =>
    unfold mapME
    refine ne_err_bind e _ _ (h a (List.mem_cons_self a l)) (fun b => ?_)
    refine ne_err_bind e _ _ (ih (fun c hc => h c (List.mem_cons_of_mem a hc))) (fun r => ?_)
    exact ne_err_ok _ e

theorem ne_err_pyGet {α : Type} (l : List α) (i : ℕ) (e : PyErr)
    (he : e ≠ PyErr.indexError) : pyGet l i ≠ Except.error e := by
  unfold pyGet
  cases l[i]? with
  | none =>
    intro hc
    injection hc with h2
    exact he h2.symm
  | some v => exact ne_err_ok v e

theorem ne_err_pyMax (l : List ℚ) (msg : String)
    (hmsg : msg ≠ "max() arg is an empty sequence") :
    pyMax l ≠ Except.error (PyErr.valueError msg) := by
  unfold pyMax
  cases l with
  | nil =>
    intro hc
    injection hc with h2
    injection h2 with h3
    exact hmsg h3.symm
  | cons a r => exact ne_err_ok _ _

theorem ne_err_pyMin (l : List ℚ) (msg : String)
    (hmsg : msg ≠ "min() arg is an empty sequence") :
    pyMin l ≠ Except.error (PyErr.valueError msg) := by
  unfold pyMin
  cases l with
  | nil =>
    intro hc
    injection hc with h2
    injection h2 with h3
    exact hmsg h3.symm
  | cons a r => exact ne_err_ok _ _

theorem ne_err_npDot (C : List (List ℚ)) (v : List ℚ) (msg : String)
    (hmsg : msg ≠ "shapes not aligned") :
    npDot C v ≠ Except.error (PyErr.valueError msg) := by
  unfold npDot
  split
  · exact ne_err_ok _ _
  · intro hc
    injection hc with h2
    injection h2 with h3
    exact hmsg h3.symm

/-- The dimensionality check of `plot_partition_explicit_solution` raises a
`ValueError` exactly when the polyhedron of the first critical region does
not have 2 columns; nothing later in the function can raise a
`ValueError`. -/
theorem plot_partition_ve_iff (sol : ExplicitSolution) (pas : Bool)
    (rng : ℕ → List ℚ) (cr0 : CriticalRegion)
    (h0 : sol.critical_regions.head? = some cr0) :
    (∃ msg, plot_partition_explicit_solution sol pas rng
      = Except.error (PyErr.valueError msg))
      ↔ npShape1 cr0.polyhedron.A ≠ 2 := by
  rcases sol with ⟨crs, Vf⟩
  cases crs with
  | nil => simp at h0
  | cons a l =>
    simp only [List.head?_cons, Option.some_inj] at h0
    subst h0
    have hget : pyGet (a :: l) 0 = Except.ok a := by
      simp [pyGet]
    unfold plot_partition_explicit_solution
    simp only [hget, bind_ok]
    by_cases hcols : npShape1 a.polyhedron.A = 2
    · rw [if_neg (by simp [hcols])]
      apply iff_of_false
      · rintro ⟨msg, hm⟩
        revert hm
        refine noVE_bind _ _ (noVE_mapME _ _ (fun jcr hj => ?_)) (fun evss => noVE_ok _) msg
        unfold partitionIter
        cases pas with
        | false => exact noVE_ok _
        | true =>
          refine noVE_bind _ _ (noVE_pyGet _ _) (fun c0 => ?_)
          refine noVE_bind _ _ (noVE_pyGet _ _) (fun c1 => ?_)
          exact noVE_ok _
      · exact fun hcc => hcc hcols
    · rw [if_pos hcols]
      exact iff_of_true ⟨_, rfl⟩ hcols

/-- The dimensionality check of `plot_value_function_mpqp` raises its
`ValueError` exactly when the polyhedron of the first critical region does
not have 2 columns: the only other `ValueError` the function can raise
(`max()`/`min()` on an empty vertex list) carries a different message. -/
theorem plot_value_function_ve_iff (mpqp : MultiParametricQuadraticProgram)
    (sol : ExplicitSolution) (res : ℕ) (cr0 : CriticalRegion)
    (h0 : sol.critical_regions.head? = some cr0) :
    (plot_value_function_mpqp mpqp sol res
      = Except.error (PyErr.valueError "can plot only 2-dimensional partitions."))
      ↔ npShape1 cr0.polyhedron.A ≠ 2 := by
  rcases sol with ⟨crs, Vf⟩
  cases crs with
  | nil => simp at h0
  | cons a l =>
    simp only [List.head?_cons, Option.some_inj] at h0
    subst h0
    have hget : pyGet (a :: l) 0 = Except.ok a := by
      simp [pyGet]
    unfold plot_value_function_mpqp
    simp only [hget, bind_ok]
    by_cases hcols : npShape1 a.polyhedron.A = 2
    · rw [if_neg (by simp [hcols])]
      apply iff_of_false
      · intro hm
        revert hm
        refine ne_err_bind _ _ _
          (ne_err_mapME _ _ _ (fun v hv => ne_err_pyGet _ _ _ (by simp)))
          (fun xs0 => ?_)
        refine ne_err_bind _ _ _ (ne_err_pyMax _ _ (by decide)) (fun xmax => ?_)
        refine ne_err_bind _ _ _ (ne_err_pyMin _ _ (by decide)) (fun xmin => ?_)
        refine ne_err_bind _ _ _
          (ne_err_mapME _ _ _ (fun v hv => ne_err_pyGet _ _ _ (by simp)))
          (fun ys0 => ?_)
        refine ne_err_bind _ _ _ (ne_err_pyMax _ _ (by decide)) (fun ymax => ?_)
        refine ne_err_bind _ _ _ (ne_err_pyMin _ _ (by decide)) (fun ymin => ?_)
        exact ne_err_ok _ _
      · exact fun hcc => hcc hcols
    · rw [if_pos hcols]
      exact iff_of_true rfl hcols

/-! ### Determinism up to the randomly drawn facecolors -/

/-- Erase the facecolor argument of a polyhedron drawing call; all other
drawing calls are kept unchanged. -/
def stripColor : PlotEvent → PlotEvent
  | PlotEvent.polyPlot p _ => PlotEvent.polyPlot p none
  | e => e

theorem partitionIter_strip (pas : Bool) (rng1 rng2 : ℕ → List ℚ)
    (jcr : ℕ × CriticalRegion) :
    Except.map (List.map stripColor) (partitionIter pas rng1 jcr)
      = Except.map (List.map stripColor) (partitionIter pas rng2 jcr) := by
  unfold partitionIter
  cases pas with
  | false => rfl
  | true =>
    cases h0 : pyGet jcr.2.polyhedron.center 0 with
    | error e => simp [bind_err]
    | ok c0 =>
      simp only [bind_ok]
      cases h1 : pyGet jcr.2.polyhedron.center 1 with
      | error e => simp [bind_err]
      | ok c1 => simp [bind_ok, Except.map, stripColor]

theorem mapME_partition_strip (pas : Bool) (rng1 rng2 : ℕ → List ℚ)
    (l : List (ℕ × CriticalRegion)) :
    Except.map (fun evss => evss.map (List.map stripColor))
      (mapME (partitionIter pas rng1) l)
      = Except.map (fun evss => evss.map (List.map stripColor))
        (mapME (partitionIter pas rng2) l) := by
  induction l with
  | nil => rfl
  | cons a l ih =>
    have ha := partitionIter_strip pas rng1 rng2 a
    unfold mapME
    cases e1 : partitionIter pas rng1 a with
    | error er =>
      cases e2 : partitionIter pas rng2 a with
      | error er2 =>
        rw [e1, e2] at ha
        simp only [Except.map] at ha
        injection ha with he
        rw [he]
        simp [bind_err]
      | ok l2 =>
        rw [e1, e2] at ha
        simp [Except.map] at ha
    | ok l1 =>
      cases e2 : partitionIter pas rng2 a with
      | error er2 =>
        rw [e1, e2] at ha
        simp [Except.map] at ha
      | ok l2 =>
        rw [e1, e2] at ha
        simp only [Except.map] at ha
        injection ha with he
        simp only [bind_ok]
        cases m1 : mapME (partitionIter pas rng1) l with
        | error er =>
          cases m2 : mapME (partitionIter pas rng2) l with
          | error er2 =>
            rw [m1, m2] at ih
            simp only [Except.map] at ih
            injection ih with hie
            rw [hie]
            simp [bind_err]
          | ok r2 =>
            rw [m1, m2] at ih
            simp [Except.map] at ih
        | ok r1 =>
          cases m2 : mapME (partitionIter pas rng2) l with
          | error er2 =>
            rw [m1, m2] at ih
            simp [Except.map] at ih
          | ok r2 =>
            rw [m1, m2] at ih
            simp only [Except.map] at ih
            injection ih with hie
            simp only [bind_ok, Except.map, List.map_cons]
            rw [he, hie]

/-- Two runs of `plot_partition_explicit_solution` on the same solution and
flags, but from different states of the global random number generator,
issue the same drawing calls up to the facecolor arguments. -/
theorem plot_partition_strip (sol : ExplicitSolution) (pas : Bool)
    (rng1 rng2 : ℕ → List ℚ) :
    Except.map (List.map stripColor)
      (plot_partition_explicit_solution sol pas rng1)
      = Except.map (List.map stripColor)
        (plot_partition_explicit_solution sol pas rng2) := by
  unfold plot_partition_explicit_solution
  cases hget : pyGet sol.critical_regions 0 with
  | error e => simp [bind_err]
  | ok cr0 =>
    simp only [bind_ok]
    by_cases hcols : npShape1 cr0.polyhedron.A ≠ 2
    · rw [if_pos hcols, if_pos hcols]
    · rw [if_neg hcols, if_neg hcols]
      have hs := mapME_partition_strip pas rng1 rng2 sol.critical_regions.enum
      cases m1 : mapME (partitionIter pas rng1) sol.critical_regions.enum with
      | error er =>
        cases m2 : mapME (partitionIter pas rng2) sol.critical_regions.enum with
        | error er2 =>
          rw [m1, m2] at hs
          simp only [Except.map] at hs
          injection hs with he
          rw [he]
        | ok r2 =>
          rw [m1, m2] at hs
          simp [Except.map] at hs
      | ok r1 =>
        cases m2 : mapME (partitionIter pas rng2) sol.critical_regions.enum with
        | error er2 =>
          rw [m1, m2] at hs
          simp [Except.map] at hs
        | ok r2 =>
          rw [m1, m2] at hs
          simp only [Except.map] at hs
          injection hs with he
          simp only [bind_ok, Except.map]
          rw [List.map_flatten, List.map_flatten, he]

/-! ### The time-series functions never raise a ValueError -/

theorem noVE_inputIter (u : List (List ℚ)) (bnds : Option (List (List ℚ)))
    (N nu : ℕ) (t : List ℚ) (h : ℚ) (i : ℕ) :
    NoVE (inputIter u bnds N nu t h i) := by
  unfold inputIter
  refine noVE_bind _ _ (noVE_mapME _ _ (fun k hk =>
    noVE_bind _ _ (noVE_pyGet _ _) (fun uk => noVE_pyGet _ _))) (fun seq => ?_)
  refine noVE_bind _ _ (noVE_pyGet _ _) (fun s0 => ?_)
  refine noVE_bind _ _ ?_ (fun bp => ?_)
  · cases bnds with
    | none => exact noVE_ok _
    | some bs =>
      refine noVE_bind _ _ (noVE_mapME _ _ (fun b hb =>
        noVE_bind _ _ (noVE_pyGet _ _) (fun bi => noVE_ok _)))
        (fun evs => noVE_ok _)
  · refine noVE_bind _ _ ?_ (fun lp => noVE_ok _)
    split
    · split
      · split
        · exact noVE_ok _
        · exact noVE_err_unbound _
      · exact noVE_ok _
    · exact noVE_ok _

theorem noVE_stateIter (x : List (List ℚ)) (bnds : Option (List (List ℚ)))
    (N nx : ℕ) (t : List ℚ) (h : ℚ) (i : ℕ) :
    NoVE (stateIter x bnds N nx t h i) := by
  unfold stateIter
  refine noVE_bind _ _ (noVE_mapME _ _ (fun k hk =>
    noVE_bind _ _ (noVE_pyGet _ _) (fun xk => noVE_pyGet _ _))) (fun seq => ?_)
  refine noVE_bind _ _ ?_ (fun bp => ?_)
  · cases bnds with
    | none => exact noVE_ok _
    | some bs =>
      refine noVE_bind _ _ (noVE_mapME _ _ (fun b hb =>
        noVE_bind _ _ (noVE_pyGet _ _) (fun bi => noVE_ok _)))
        (fun evs => noVE_ok _)
  · refine noVE_bind _ _ ?_ (fun lp => noVE_ok _)
    split
    · split
      · split
        · exact noVE_ok _
        · exact noVE_err_unbound _
      · exact noVE_ok _
    · exact noVE_ok _

theorem noVE_outputIter (y : List (List ℚ)) (bnds : Option (List (List ℚ)))
    (N : ℤ) (ny : ℕ) (t : List ℚ) (h : ℚ) (i : ℕ) :
    NoVE (outputIter y bnds N ny t h i) := by
  unfold outputIter
  refine noVE_bind _ _ (noVE_mapME _ _ (fun k hk =>
    noVE_bind _ _ (noVE_pyGet _ _) (fun yk => noVE_pyGet _ _))) (fun seq => ?_)
  refine noVE_bind _ _ ?_ (fun bp => ?_)
  · cases bnds with
    | none => exact noVE_ok _
    | some bs =>
      refine noVE_bind _ _ (noVE_mapME _ _ (fun b hb =>
        noVE_bind _ _ (noVE_pyGet _ _) (fun bi => noVE_ok _)))
        (fun evs => noVE_ok _)
  · refine noVE_bind _ _ ?_ (fun lp => noVE_ok _)
    split
    · split
      · split
        · exact noVE_ok _
        · exact noVE_err_unbound _
      · exact noVE_ok _
    · exact noVE_ok _

/-- `plot_input_sequence` performs no dimensionality check: it can never
raise a `ValueError`, whatever its arguments. -/
theorem noVE_plot_input_sequence (u : List (List ℚ)) (h : ℚ)
    (bnds : Option (List (List ℚ))) : NoVE (plot_input_sequence u h bnds) := by
  unfold plot_input_sequence
  refine noVE_bind _ _ (noVE_pyGet _ _) (fun u0 => ?_)
  refine noVE_bind _ _ (noVE_mapME _ _ (fun i hi => noVE_inputIter _ _ _ _ _ _ _))
    (fun evss => noVE_ok _)

/-- `plot_state_trajectory` performs no dimensionality check: it can never
raise a `ValueError`, whatever its arguments. -/
theorem noVE_plot_state_trajectory (x : List (List ℚ)) (h : ℚ)
    (bnds : Option (List (List ℚ))) : NoVE (plot_state_trajectory x h bnds) := by
  unfold plot_state_trajectory
  refine noVE_bind _ _ (noVE_pyGet _ _) (fun x0 => ?_)
  refine noVE_bind _ _ (noVE_mapME _ _ (fun i hi => noVE_stateIter _ _ _ _ _ _ _))
    (fun evss => noVE_ok _)

/-- `plot_output_trajectory` performs no dimensionality check of its own:
the only `ValueError` it can raise is numpy's shape-mismatch error from
`C.dot` on misaligned operands. -/
theorem output_ve_only_dot (C : List (List ℚ)) (x : List (List ℚ))
    (h : ℚ) (bnds : Option (List (List ℚ))) (msg : String)
    (hmsg : msg ≠ "shapes not aligned") :
    plot_output_trajectory C x h bnds
      ≠ Except.error (PyErr.valueError msg) := by
  unfold plot_output_trajectory
  refine ne_err_bind _ _ _
    (ne_err_mapME _ _ _ (fun v hv => ne_err_npDot _ _ _ hmsg)) (fun y => ?_)
  exact noVE_bind _ _ (noVE_mapME _ _ (fun i hi => noVE_outputIter _ _ _ _ _ _ _))
    (fun evss => noVE_ok _) msg

/-! ### An empty (non-None) bounds list reaches an unassigned bound_plot -/

theorem mapME_err_head {α β : Type} (f : α → PyM β) (a : α) (l : List α)
    (e : PyErr) (h : f a = Except.error e) :
    mapME f (a :: l) = Except.error e := by
  unfold mapME
  rw [h, bind_err]

theorem range_pos_head (n : ℕ) (hn : 0 < n) :
    List.range n = 0 :: (List.range (n - 1)).map Nat.succ := by
  rcases n with _ | m
  · omega
  · rw [List.range_succ_eq_map]
    simp

theorem inputIter_bounds_empty (u : List (List ℚ)) (nu : ℕ) (t : List ℚ)
    (h : ℚ)
    (hNpos : 0 < u.length)
    (hrow : ∀ row ∈ u, 0 < row.length) :
    inputIter u (some []) u.length nu t h 0
      = Except.error (PyErr.unboundLocal "bound_plot") := by
  have hseq : mapME (fun k => do
      let uk ← pyGet u k
      pyGet uk 0) (List.range u.length)
      = Except.ok (seqAt u u.length 0) := by
    unfold seqAt
    apply mapME_ok
    intro k hk
    rw [List.mem_range] at hk
    rw [pyGet_ok u k [] hk, bind_ok]
    exact pyGet_ok _ 0 0 (hrow _ (getD_mem u k [] hk))
  have hs0 : pyGet (seqAt u u.length 0) 0 = Except.ok (entry u 0 0) := by
    unfold seqAt entry
    rw [pyGet_ok _ 0 0 (by simpa using hNpos), getD_map_range _ _ hNpos]
  unfold inputIter
  simp [hseq, hs0, bind_ok, bind_err, mapME]

theorem plot_input_sequence_bounds_empty (u0 : List ℚ) (rest : List (List ℚ))
    (h : ℚ)
    (hrow : ∀ row ∈ u0 :: rest, 0 < row.length) :
    plot_input_sequence (u0 :: rest) h (some [])
      = Except.error (PyErr.unboundLocal "bound_plot") := by
  have hget : pyGet (u0 :: rest) 0 = Except.ok u0 := by
    simp [pyGet]
  have h0pos : 0 < u0.length := hrow u0 (List.mem_cons_self u0 rest)
  have hfirst := inputIter_bounds_empty (u0 :: rest) u0.length
    (linspace 0 (((u0 :: rest).length : ℚ) * h) ((u0 :: rest).length + 1)) h
    (by simp) (fun row hr => hrow row hr)
  have hr : List.range u0.length
      = 0 :: (List.range (u0.length - 1)).map Nat.succ :=
    range_pos_head u0.length h0pos
  unfold plot_input_sequence
  simp only [hget, bind_ok]
  rw [hr, mapME_err_head _ 0 _ _ hfirst, bind_err]

theorem stateIter_bounds_empty (x : List (List ℚ)) (nx : ℕ) (t : List ℚ)
    (h : ℚ)
    (hNpos : 0 < x.length)
    (hrow : ∀ row ∈ x, 0 < row.length) :
    stateIter x (some []) (x.length - 1) nx t h 0
      = Except.error (PyErr.unboundLocal "bound_plot") := by
  have hseq : mapME (fun k => do
      let xk ← pyGet x k
      pyGet xk 0) (List.range ((x.length - 1) + 1))
      = Except.ok (seqAt x ((x.length - 1) + 1) 0) := by
    unfold seqAt
    apply mapME_ok
    intro k hk
    rw [List.mem_range] at hk
    have hk2 : k < x.length := by omega
    rw [pyGet_ok x k [] hk2, bind_ok]
    exact pyGet_ok _ 0 0 (hrow _ (getD_mem x k [] hk2))
  unfold stateIter
  simp [hseq, bind_ok, bind_err, mapME]

theorem plot_state_trajectory_bounds_empty (x0 : List ℚ)
    (rest : List (List ℚ)) (h : ℚ)
    (hrow : ∀ row ∈ x0 :: rest, 0 < row.length) :
    plot_state_trajectory (x0 :: rest) h (some [])
      = Except.error (PyErr.unboundLocal "bound_plot") := by
  have hget : pyGet (x0 :: rest) 0 = Except.ok x0 := by
    simp [pyGet]
  have h0pos : 0 < x0.length := hrow x0 (List.mem_cons_self x0 rest)
  have hfirst := stateIter_bounds_empty (x0 :: rest) x0.length
    (linspace 0 ((((x0 :: rest).length - 1 : ℕ) : ℚ) * h) (((x0 :: rest).length - 1) + 1)) h
    (by simp) (fun row hr => hrow row hr)
  have hr : List.range x0.length
      = 0 :: (List.range (x0.length - 1)).map Nat.succ :=
    range_pos_head x0.length h0pos
  unfold plot_state_trajectory
  simp only [hget, bind_ok]
  rw [hr, mapME_err_head _ 0 _ _ hfirst, bind_err]

theorem outputIter_bounds_empty (y : List (List ℚ)) (N : ℤ) (ny : ℕ)
    (t : List ℚ) (h : ℚ)
    (hNlen : (N + 1).toNat = y.length)
    (hrow : ∀ row ∈ y, 0 < row.length) :
    outputIter y (some []) N ny t h 0
      = Except.error (PyErr.unboundLocal "bound_plot") := by
  have hseq : mapME (fun k => do
      let yk ← pyGet y k
      pyGet yk 0) (List.range (N + 1).toNat)
      = Except.ok (seqAt y (N + 1).toNat 0) := by
    unfold seqAt
    apply mapME_ok
    intro k hk
    rw [List.mem_range] at hk
    have hk2 : k < y.length := by omega
    rw [pyGet_ok y k [] hk2, bind_ok]
    exact pyGet_ok _ 0 0 (hrow _ (getD_mem y k [] hk2))
  unfold outputIter
  simp [hseq, bind_ok, bind_err, mapME]

theorem plot_output_trajectory_bounds_empty (C : List (List ℚ))
    (x : List (List ℚ)) (h : ℚ)
    (hCpos : 0 < C.length)
    (hdot : ∀ v ∈ x, ∀ row ∈ C, row.length = v.length) :
    plot_output_trajectory C x h (some [])
      = Except.error (PyErr.unboundLocal "bound_plot") := by
  have hy : mapME (npDot C) x = Except.ok (x.map (matVec C)) := by
    apply mapME_ok
    intro v hv
    exact npDot_ok C v (hdot v hv)
  have hylen : ∀ row ∈ x.map (matVec C), 0 < row.length := by
    intro row hrow
    rw [List.mem_map] at hrow
    obtain ⟨v, hv, rfl⟩ := hrow
    simpa [matVec] using hCpos
  have hNlen : (((x.length : ℤ) - 1) + 1).toNat = (x.map (matVec C)).length := by
    simp
  have hfirst := outputIter_bounds_empty (x.map (matVec C)) ((x.length : ℤ) - 1)
    C.length
    (linspace 0 ((((x.length : ℤ) - 1 : ℤ) : ℚ) * h) (((x.length : ℤ) - 1) + 1).toNat) h
    hNlen hylen
  have hr : List.range C.length
      = 0 :: (List.range (C.length - 1)).map Nat.succ :=
    range_pos_head C.length hCpos
  unfold plot_output_trajectory
  simp only [hy, bind_ok]
  rw [hr, mapME_err_head _ 0 _ _ hfirst, bind_err]

theorem noVE_sspIter (x : List (List ℚ)) (dim : List ℕ)
    (label : Option String) (t : ℕ) : NoVE (sspIter x dim label t) := by
  unfold sspIter
  refine noVE_bind _ _ ?_ (fun first => ?_)
  · split
    · refine noVE_bind _ _ (noVE_pyGet _ _) (fun x0 => ?_)
      refine noVE_bind _ _ (noVE_pyGet _ _) (fun x1 => ?_)
      refine noVE_bind _ _ (noVE_pyGet _ _) (fun d0 => ?_)
      refine noVE_bind _ _ (noVE_pyGet _ _) (fun d1 => ?_)
      refine noVE_bind _ _ (noVE_pyGet _ _) (fun a0 => ?_)
      refine noVE_bind _ _ (noVE_pyGet _ _) (fun a1 => ?_)
      refine noVE_bind _ _ (noVE_pyGet _ _) (fun b0 => ?_)
      refine noVE_bind _ _ (noVE_pyGet _ _) (fun b1 => ?_)
      exact noVE_ok _
    · exact noVE_ok _
  · refine noVE_bind _ _ (noVE_pyGet _ _) (fun d0 => ?_)
    refine noVE_bind _ _ (noVE_pyGet _ _) (fun d1 => ?_)
    refine noVE_bind _ _ (noVE_pyGet _ _) (fun xt => ?_)
    refine noVE_bind _ _ (noVE_pyGet _ _) (fun xt1 => ?_)
    refine noVE_bind _ _ (noVE_pyGet _ _) (fun a0 => ?_)
    refine noVE_bind _ _ (noVE_pyGet _ _) (fun a1 => ?_)
    refine noVE_bind _ _ (noVE_pyGet _ _) (fun b0 => ?_)
    refine noVE_bind _ _ (noVE_pyGet _ _) (fun b1 => ?_)
    exact noVE_ok _

/-- The dimensionality check of `plot_state_space_trajectory` is the only
`ValueError` the function can raise: it raises one exactly when `dim` does
not have length 2. -/
theorem ssp_ve_iff (x : List (List ℚ)) (dim : List ℕ) (text : Bool)
    (label : Option String) :
    (∃ msg, plot_state_space_trajectory x dim text label
      = Except.error (PyErr.valueError msg))
      ↔ dim.length ≠ 2 := by
  unfold plot_state_space_trajectory
  by_cases hlen : dim.length ≠ 2
  · rw [if_pos hlen]
    exact iff_of_true ⟨_, rfl⟩ hlen
  · rw [if_neg hlen]
    apply iff_of_false
    · rintro ⟨msg, hm⟩
      revert hm
      refine noVE_bind _ _ (noVE_mapME _ _ (fun t ht => noVE_sspIter _ _ _ _))
        (fun trajEvs => ?_) msg
      refine noVE_bind _ _ (noVE_mapME _ _ (fun t ht => ?_))
        (fun textEvs => ?_)
      · split
        · refine noVE_bind _ _ (noVE_pyGet _ _) (fun xt => ?_)
          refine noVE_bind _ _ (noVE_pyGet _ _) (fun p0 => ?_)
          refine noVE_bind _ _ (noVE_pyGet _ _) (fun p1 => ?_)
          exact noVE_ok _
        · exact noVE_ok _
      · refine noVE_bind _ _ (noVE_pyGet _ _) (fun x0 => ?_)
        refine noVE_bind _ _ (noVE_pyGet _ _) (fun d0 => ?_)
        refine noVE_bind _ _ (noVE_pyGet _ _) (fun d1 => ?_)
        refine noVE_bind _ _ (noVE_pyGet _ _) (fun s0 => ?_)
        refine noVE_bind _ _ (noVE_pyGet _ _) (fun s1 => ?_)
        exact noVE_ok _
    · exact fun hcc => hcc (not_not.mp hlen)

/-! ### Projections of the closed-form traces -/

theorem flatten_map_const {β : Type} (c : List β) (n : ℕ) :
    ((List.range n).map (fun _ => c)).flatten
      = (List.replicate n c).flatten := by
  congr 1
  rw [List.eq_replicate_iff]
  simp

theorem flatten_map_singleton_const {β : Type} (c : β) (n : ℕ) :
    ((List.range n).map (fun _ => [c])).flatten = List.replicate n c := by
  rw [flatten_map_singleton]
  rw [List.eq_replicate_iff]
  simp

theorem flatten_map_ite_zero {β : Type} (g : List β) (n : ℕ) (hn : 0 < n) :
    ((List.range n).map (fun i => if i = 0 then g else [])).flatten = g := by
  rw [range_pos_head n hn]
  simp only [List.map_cons, List.map_map, List.flatten_cons, if_pos rfl]
  have : ((List.range (n - 1)).map ((fun i => if i = 0 then g else ([] : List β)) ∘ Nat.succ)).flatten = ([] : List β) := by
    rw [List.flatten_eq_nil_iff]
    intro l hl
    rw [List.mem_map] at hl
    obtain ⟨a, ha, rfl⟩ := hl
    simp [Function.comp, Nat.succ_ne_zero]
  rw [this, List.append_nil]
  simp

theorem inputIterTrace_xlim (u : List (List ℚ)) (bnds : Option (List (List ℚ)))
    (N nu : ℕ) (t : List ℚ) (h : ℚ) (i : ℕ) :
    (inputIterTrace u bnds N nu t h i).filterMap xlimOf = [(0, (N : ℚ) * h)] := by
  unfold inputIterTrace boundsEvsOpt boundEvs legendEvs
  cases bnds <;> by_cases hi0 : i = 0 <;>
    simp [List.filterMap_append, List.filterMap_map, xlimOf, hi0, Function.comp]

theorem inputIterTrace_ylabel (u : List (List ℚ)) (bnds : Option (List (List ℚ)))
    (N nu : ℕ) (t : List ℚ) (h : ℚ) (i : ℕ) :
    (inputIterTrace u bnds N nu t h i).filterMap ylabelOf
      = ["$u_\x7b" ++ toString (i + 1) ++ "\x7d$"] := by
  unfold inputIterTrace boundsEvsOpt boundEvs legendEvs
  cases bnds <;> by_cases hi0 : i = 0 <;>
    simp [List.filterMap_append, List.filterMap_map, ylabelOf, hi0, Function.comp]

theorem inputIterTrace_xlabel (u : List (List ℚ)) (bnds : Option (List (List ℚ)))
    (N nu : ℕ) (t : List ℚ) (h : ℚ) (i : ℕ) :
    (inputIterTrace u bnds N nu t h i).filterMap xlabelOf = [] := by
  unfold inputIterTrace boundsEvsOpt boundEvs legendEvs
  cases bnds <;> by_cases hi0 : i = 0 <;>
    simp [List.filterMap_append, List.filterMap_map, xlabelOf, hi0, Function.comp]

theorem inputIterTrace_legend (u : List (List ℚ)) (bnds : Option (List (List ℚ)))
    (N nu : ℕ) (t : List ℚ) (h : ℚ) (i : ℕ) :
    (inputIterTrace u bnds N nu t h i).filterMap legendOf
      = (if i = 0 then
          [if bnds.isSome then ["Optimal control", "Control bounds"]
           else ["Optimal control"]]
         else []) := by
  unfold inputIterTrace boundsEvsOpt boundEvs legendEvs
  cases bnds <;> by_cases hi0 : i = 0 <;>
    simp [List.filterMap_append, List.filterMap_map, legendOf, hi0, Function.comp]

theorem inputIterTrace_stepB (u : List (List ℚ)) (bnds : Option (List (List ℚ)))
    (N nu : ℕ) (t : List ℚ) (h : ℚ) (i : ℕ) :
    (inputIterTrace u bnds N nu t h i).filterMap stepBOf
      = [(t, entry u 0 i :: seqAt u N i)] := by
  unfold inputIterTrace boundsEvsOpt boundEvs legendEvs
  cases bnds <;> by_cases hi0 : i = 0 <;>
    simp [List.filterMap_append, List.filterMap_map, stepBOf, hi0, Function.comp]

theorem inputTrace_xlim (u : List (List ℚ)) (h : ℚ)
    (bnds : Option (List (List ℚ))) :
    (inputTrace u h bnds).filterMap xlimOf
      = List.replicate (u.getD 0 []).length (0, (u.length : ℚ) * h) := by
  unfold inputTrace
  rw [List.filterMap_append, filterMap_flatten, List.map_map]
  have : ((List.range (u.getD 0 []).length).map
      ((fun s => List.filterMap xlimOf s) ∘ inputIterTrace u bnds u.length (u.getD 0 []).length
        (linspace 0 ((u.length : ℚ) * h) (u.length + 1)) h)).flatten
      = List.replicate (u.getD 0 []).length (0, (u.length : ℚ) * h) := by
    have he : ((fun s => List.filterMap xlimOf s) ∘ inputIterTrace u bnds u.length (u.getD 0 []).length
        (linspace 0 ((u.length : ℚ) * h) (u.length + 1)) h)
        = fun i => [((0 : ℚ), (u.length : ℚ) * h)] := by
      funext i
      exact inputIterTrace_xlim u bnds u.length (u.getD 0 []).length _ h i
    rw [he, flatten_map_singleton_const]
  rw [this]
  simp [xlimOf]

theorem inputTrace_ylabel (u : List (List ℚ)) (h : ℚ)
    (bnds : Option (List (List ℚ))) :
    (inputTrace u h bnds).filterMap ylabelOf
      = (List.range (u.getD 0 []).length).map
          (fun i => "$u_\x7b" ++ toString (i + 1) ++ "\x7d$") := by
  unfold inputTrace
  rw [List.filterMap_append, filterMap_flatten, List.map_map]
  have he : ((fun s => List.filterMap ylabelOf s) ∘ inputIterTrace u bnds u.length (u.getD 0 []).length
      (linspace 0 ((u.length : ℚ) * h) (u.length + 1)) h)
      = fun i => ["$u_\x7b" ++ toString (i + 1) ++ "\x7d$"] := by
    funext i
    exact inputIterTrace_ylabel u bnds u.length (u.getD 0 []).length _ h i
  rw [he, flatten_map_singleton]
  simp [ylabelOf]

theorem inputTrace_legend (u : List (List ℚ)) (h : ℚ)
    (bnds : Option (List (List ℚ))) (hnu : 0 < (u.getD 0 []).length) :
    (inputTrace u h bnds).filterMap legendOf
      = [if bnds.isSome then ["Optimal control", "Control bounds"]
         else ["Optimal control"]] := by
  unfold inputTrace
  rw [List.filterMap_append, filterMap_flatten, List.map_map]
  have he : ((fun s => List.filterMap legendOf s) ∘ inputIterTrace u bnds u.length (u.getD 0 []).length
      (linspace 0 ((u.length : ℚ) * h) (u.length + 1)) h)
      = fun i => (if i = 0 then
          [if bnds.isSome then ["Optimal control", "Control bounds"]
           else ["Optimal control"]]
         else []) := by
    funext i
    exact inputIterTrace_legend u bnds u.length (u.getD 0 []).length _ h i
  rw [he, flatten_map_ite_zero _ _ hnu]
  simp [legendOf]

theorem inputTrace_stepB (u : List (List ℚ)) (h : ℚ)
    (bnds : Option (List (List ℚ))) :
    (inputTrace u h bnds).filterMap stepBOf
      = (List.range (u.getD 0 []).length).map
          (fun i => (linspace 0 ((u.length : ℚ) * h) (u.length + 1),
            entry u 0 i :: seqAt u u.length i)) := by
  unfold inputTrace
  rw [List.filterMap_append, filterMap_flatten, List.map_map]
  have he : ((fun s => List.filterMap stepBOf s) ∘ inputIterTrace u bnds u.length (u.getD 0 []).length
      (linspace 0 ((u.length : ℚ) * h) (u.length + 1)) h)
      = fun i => [(linspace 0 ((u.length : ℚ) * h) (u.length + 1),
          entry u 0 i :: seqAt u u.length i)] := by
    funext i
    exact inputIterTrace_stepB u bnds u.length (u.getD 0 []).length _ h i
  rw [he, flatten_map_singleton]
  simp [stepBOf]

theorem inputTrace_last (u : List (List ℚ)) (h : ℚ)
    (bnds : Option (List (List ℚ))) :
    (inputTrace u h bnds).getLast? = some (PlotEvent.xlabelEv "$t$") := by
  unfold inputTrace
  rw [List.getLast?_concat]

theorem stateIterTrace_xlim (x : List (List ℚ)) (bnds : Option (List (List ℚ)))
    (N nx : ℕ) (t : List ℚ) (h : ℚ) (i : ℕ) :
    (stateIterTrace x bnds N nx t h i).filterMap xlimOf = [(0, (N : ℚ) * h)] := by
  unfold stateIterTrace boundsEvsOpt boundEvs legendEvs
  cases bnds <;> by_cases hi0 : i = 0 <;>
    simp [List.filterMap_append, List.filterMap_map, xlimOf, hi0, Function.comp]

theorem stateIterTrace_ylabel (x : List (List ℚ)) (bnds : Option (List (List ℚ)))
    (N nx : ℕ) (t : List ℚ) (h : ℚ) (i : ℕ) :
    (stateIterTrace x bnds N nx t h i).filterMap ylabelOf
      = ["$x_\x7b" ++ toString (i + 1) ++ "\x7d$"] := by
  unfold stateIterTrace boundsEvsOpt boundEvs legendEvs
  cases bnds <;> by_cases hi0 : i = 0 <;>
    simp [List.filterMap_append, List.filterMap_map, ylabelOf, hi0, Function.comp]

theorem stateIterTrace_legend (x : List (List ℚ)) (bnds : Option (List (List ℚ)))
    (N nx : ℕ) (t : List ℚ) (h : ℚ) (i : ℕ) :
    (stateIterTrace x bnds N nx t h i).filterMap legendOf
      = (if i = 0 then
          [if bnds.isSome then ["Optimal trajectory", "State bounds"]
           else ["Optimal trajectory"]]
         else []) := by
  unfold stateIterTrace boundsEvsOpt boundEvs legendEvs
  cases bnds <;> by_cases hi0 : i = 0 <;>
    simp [List.filterMap_append, List.filterMap_map, legendOf, hi0, Function.comp]

theorem stateTrace_xlim (x : List (List ℚ)) (h : ℚ)
    (bnds : Option (List (List ℚ))) :
    (stateTrace x h bnds).filterMap xlimOf
      = List.replicate (x.getD 0 []).length (0, ((x.length - 1 : ℕ) : ℚ) * h) := by
  unfold stateTrace
  rw [List.filterMap_append, filterMap_flatten, List.map_map]
  have he : ((fun s => List.filterMap xlimOf s) ∘ stateIterTrace x bnds (x.length - 1) (x.getD 0 []).length
      (linspace 0 (((x.length - 1 : ℕ) : ℚ) * h) ((x.length - 1) + 1)) h)
      = fun i => [((0 : ℚ), ((x.length - 1 : ℕ) : ℚ) * h)] := by
    funext i
    exact stateIterTrace_xlim x bnds (x.length - 1) (x.getD 0 []).length _ h i
  rw [he, flatten_map_singleton_const]
  simp [xlimOf]

theorem stateTrace_ylabel (x : List (List ℚ)) (h : ℚ)
    (bnds : Option (List (List ℚ))) :
    (stateTrace x h bnds).filterMap ylabelOf
      = (List.range (x.getD 0 []).length).map
          (fun i => "$x_\x7b" ++ toString (i + 1) ++ "\x7d$") := by
  unfold stateTrace
  rw [List.filterMap_append, filterMap_flatten, List.map_map]
  have he : ((fun s => List.filterMap ylabelOf s) ∘ stateIterTrace x bnds (x.length - 1) (x.getD 0 []).length
      (linspace 0 (((x.length - 1 : ℕ) : ℚ) * h) ((x.length - 1) + 1)) h)
      = fun i => ["$x_\x7b" ++ toString (i + 1) ++ "\x7d$"] := by
    funext i
    exact stateIterTrace_ylabel x bnds (x.length - 1) (x.getD 0 []).length _ h i
  rw [he, flatten_map_singleton]
  simp [ylabelOf]

theorem stateTrace_legend (x : List (List ℚ)) (h : ℚ)
    (bnds : Option (List (List ℚ))) (hnx : 0 < (x.getD 0 []).length) :
    (stateTrace x h bnds).filterMap legendOf
      = [if bnds.isSome then ["Optimal trajectory", "State bounds"]
         else ["Optimal trajectory"]] := by
  unfold stateTrace
  rw [List.filterMap_append, filterMap_flatten, List.map_map]
  have he : ((fun s => List.filterMap legendOf s) ∘ stateIterTrace x bnds (x.length - 1) (x.getD 0 []).length
      (linspace 0 (((x.length - 1 : ℕ) : ℚ) * h) ((x.length - 1) + 1)) h)
      = fun i => (if i = 0 then
          [if bnds.isSome then ["Optimal trajectory", "State bounds"]
           else ["Optimal trajectory"]]
         else []) := by
    funext i
    exact stateIterTrace_legend x bnds (x.length - 1) (x.getD 0 []).length _ h i
  rw [he, flatten_map_ite_zero _ _ hnx]
  simp [legendOf]

theorem stateTrace_last (x : List (List ℚ)) (h : ℚ)
    (bnds : Option (List (List ℚ))) :
    (stateTrace x h bnds).getLast? = some (PlotEvent.xlabelEv "$t$") := by
  unfold stateTrace
  rw [List.getLast?_concat]

theorem outputIterTrace_subplot (y : List (List ℚ)) (bnds : Option (List (List ℚ)))
    (N : ℤ) (ny : ℕ) (t : List ℚ) (h : ℚ) (i : ℕ) :
    (outputIterTrace y bnds N ny t h i).filterMap subplotOf = [(ny, 1, i + 1)] := by
  unfold outputIterTrace boundsEvsOpt boundEvs legendEvs
  cases bnds <;> by_cases hi0 : i = 0 <;>
    simp [List.filterMap_append, List.filterMap_map, subplotOf, hi0, Function.comp]

theorem outputIterTrace_lineB (y : List (List ℚ)) (bnds : Option (List (List ℚ)))
    (N : ℤ) (ny : ℕ) (t : List ℚ) (h : ℚ) (i : ℕ) :
    (outputIterTrace y bnds N ny t h i).filterMap lineBOf
      = [(t, seqAt y (N + 1).toNat i)] := by
  unfold outputIterTrace boundsEvsOpt boundEvs legendEvs
  cases bnds <;> by_cases hi0 : i = 0 <;>
    simp [List.filterMap_append, List.filterMap_map, lineBOf, hi0, Function.comp]

theorem outputIterTrace_legend (y : List (List ℚ)) (bnds : Option (List (List ℚ)))
    (N : ℤ) (ny : ℕ) (t : List ℚ) (h : ℚ) (i : ℕ) :
    (outputIterTrace y bnds N ny t h i).filterMap legendOf
      = (if i = 0 then
          [if bnds.isSome then ["Optimal trajectory", "Output bounds"]
           else ["Optimal trajectory"]]
         else []) := by
  unfold outputIterTrace boundsEvsOpt boundEvs legendEvs
  cases bnds <;> by_cases hi0 : i = 0 <;>
    simp [List.filterMap_append, List.filterMap_map, legendOf, hi0, Function.comp]

theorem outputTrace_subplot (C : List (List ℚ)) (x : List (List ℚ)) (h : ℚ)
    (bnds : Option (List (List ℚ))) :
    (outputTrace C x h bnds).filterMap subplotOf
      = (List.range C.length).map (fun i => (C.length, 1, i + 1)) := by
  unfold outputTrace
  rw [List.filterMap_append, filterMap_flatten, List.map_map]
  have he : ((fun s => List.filterMap subplotOf s) ∘ outputIterTrace (x.map (matVec C)) bnds ((x.length : ℤ) - 1) C.length
      (linspace 0 ((((x.length : ℤ) - 1 : ℤ) : ℚ) * h) (((x.length : ℤ) - 1) + 1).toNat) h)
      = fun i => [(C.length, 1, i + 1)] := by
    funext i
    exact outputIterTrace_subplot _ bnds _ C.length _ h i
  rw [he, flatten_map_singleton]
  simp [subplotOf]

theorem outputTrace_lineB (C : List (List ℚ)) (x : List (List ℚ)) (h : ℚ)
    (bnds : Option (List (List ℚ))) :
    (outputTrace C x h bnds).filterMap lineBOf
      = (List.range C.length).map
          (fun i => (linspace 0 ((((x.length : ℤ) - 1 : ℤ) : ℚ) * h) (((x.length : ℤ) - 1) + 1).toNat,
            seqAt (x.map (matVec C)) (((x.length : ℤ) - 1) + 1).toNat i)) := by
  unfold outputTrace
  rw [List.filterMap_append, filterMap_flatten, List.map_map]
  have he : ((fun s => List.filterMap lineBOf s) ∘ outputIterTrace (x.map (matVec C)) bnds ((x.length : ℤ) - 1) C.length
      (linspace 0 ((((x.length : ℤ) - 1 : ℤ) : ℚ) * h) (((x.length : ℤ) - 1) + 1).toNat) h)
      = fun i => [(linspace 0 ((((x.length : ℤ) - 1 : ℤ) : ℚ) * h) (((x.length : ℤ) - 1) + 1).toNat,
          seqAt (x.map (matVec C)) (((x.length : ℤ) - 1) + 1).toNat i)] := by
    funext i
    exact outputIterTrace_lineB _ bnds _ C.length _ h i
  rw [he, flatten_map_singleton]
  simp [lineBOf]

theorem outputTrace_legend (C : List (List ℚ)) (x : List (List ℚ)) (h : ℚ)
    (bnds : Option (List (List ℚ))) (hny : 0 < C.length) :
    (outputTrace C x h bnds).filterMap legendOf
      = [if bnds.isSome then ["Optimal trajectory", "Output bounds"]
         else ["Optimal trajectory"]] := by
  unfold outputTrace
  rw [List.filterMap_append, filterMap_flatten, List.map_map]
  have he : ((fun s => List.filterMap legendOf s) ∘ outputIterTrace (x.map (matVec C)) bnds ((x.length : ℤ) - 1) C.length
      (linspace 0 ((((x.length : ℤ) - 1 : ℤ) : ℚ) * h) (((x.length : ℤ) - 1) + 1).toNat) h)
      = fun i => (if i = 0 then
          [if bnds.isSome then ["Optimal trajectory", "Output bounds"]
           else ["Optimal trajectory"]]
         else []) := by
    funext i
    exact outputIterTrace_legend (x.map (matVec C)) bnds ((x.length : ℤ) - 1)
      C.length (linspace 0 ((((x.length : ℤ) - 1 : ℤ) : ℚ) * h) (((x.length : ℤ) - 1) + 1).toNat) h i
  rw [he, flatten_map_ite_zero _ _ hny]
  simp [legendOf]

theorem filterMap_some_fun {α β : Type} (f : α → β) (l : List α) :
    l.filterMap (fun a => some (f a)) = l.map f := by
  induction l with
  | nil => rfl
  | cons a l ih => simp [ih]

theorem sspIterTrace_text_none (x : List (List ℚ)) (d0 d1 : ℕ)
    (label : Option String) (t : ℕ) :
    (sspIterTrace x d0 d1 label t).filterMap textOf = [] := by
  unfold sspIterTrace
  by_cases ht0 : t = 0 <;> simp [textOf, ht0]

theorem sspIterTrace_xlabel_none (x : List (List ℚ)) (d0 d1 : ℕ)
    (label : Option String) (t : ℕ) :
    (sspIterTrace x d0 d1 label t).filterMap xlabelOf = [] := by
  unfold sspIterTrace
  by_cases ht0 : t = 0 <;> simp [xlabelOf, ht0]

theorem sspIterTrace_ylabel_none (x : List (List ℚ)) (d0 d1 : ℕ)
    (label : Option String) (t : ℕ) :
    (sspIterTrace x d0 d1 label t).filterMap ylabelOf = [] := by
  unfold sspIterTrace
  by_cases ht0 : t = 0 <;> simp [ylabelOf, ht0]

theorem sspTrace_text (x : List (List ℚ)) (d0 d1 : ℕ) (label : Option String) :
    (sspTrace x d0 d1 true label).filterMap textOf
      = (List.range x.length).map (fun t =>
          (entry x t 0, entry x t 1, "$x(" ++ toString t ++ ")$")) := by
  unfold sspTrace sspTextTrace
  rw [List.filterMap_append, List.filterMap_append, filterMap_flatten, List.map_map]
  have he : ((fun s => List.filterMap textOf s) ∘ sspIterTrace x d0 d1 label)
      = fun t => ([] : List (ℚ × ℚ × String)) := by
    funext t
    exact sspIterTrace_text_none x d0 d1 label t
  rw [he]
  simp only [if_true, List.filterMap_map]
  rw [Function.comp_def]
  simp only [textOf]
  rw [filterMap_some_fun]
  simp [textOf]

theorem sspTrace_labels (x : List (List ℚ)) (d0 d1 : ℕ) (text : Bool)
    (label : Option String) :
    (sspTrace x d0 d1 text label).filterMap xlabelOf
        = ["$x_\x7b" ++ toString (d0 + 1) ++ "\x7d$"]
      ∧ (sspTrace x d0 d1 text label).filterMap ylabelOf
        = ["$x_\x7b" ++ toString (d1 + 1) ++ "\x7d$"] := by
  unfold sspTrace sspTextTrace
  constructor <;>
  · rw [List.filterMap_append, List.filterMap_append, filterMap_flatten, List.map_map]
    first
    | (have he : ((fun s => List.filterMap xlabelOf s) ∘ sspIterTrace x d0 d1 label)
          = fun t => ([] : List String) := by
        funext t
        exact sspIterTrace_xlabel_none x d0 d1 label t
       rw [he]
       cases text <;> simp [xlabelOf, List.filterMap_map, Function.comp])
    | (have he : ((fun s => List.filterMap ylabelOf s) ∘ sspIterTrace x d0 d1 label)
          = fun t => ([] : List String) := by
        funext t
        exact sspIterTrace_ylabel_none x d0 d1 label t
       rw [he]
       cases text <;> simp [ylabelOf, List.filterMap_map, Function.comp])

/-- The time axis of `plot_output_trajectory` (`N = len(x) - 1` as a Python
int) is the grid `0, h, ..., (n-1)*h` of `n = len(x)` points. -/
theorem linspace_grid_int (h : ℚ) (n : ℕ) :
    linspace 0 ((((n : ℤ) - 1 : ℤ) : ℚ) * h) (((n : ℤ) - 1) + 1).toNat
      = (List.range n).map (fun k => (k : ℚ) * h) := by
  rcases n with _ | m
  · rfl
  · have h1 : ((((m + 1 : ℕ) : ℤ) - 1) + 1).toNat = m + 1 := by omega
    have h2 : ((((m + 1 : ℕ) : ℤ) - 1 : ℤ) : ℚ) = ((m : ℕ) : ℚ) := by
      push_cast
      ring
    rw [h1, h2]
    exact linspace_grid h m

theorem seqAt_map_matVec (C : List (List ℚ)) (x : List (List ℚ)) (i : ℕ) :
    seqAt (x.map (matVec C)) (((x.length : ℤ) - 1) + 1).toNat i
      = (List.range x.length).map
          (fun k => (matVec C (x.getD k [])).getD i 0) := by
  have hn : (((x.length : ℤ) - 1) + 1).toNat = x.length := by omega
  rw [hn]
  unfold seqAt entry
  apply List.map_congr_left
  intro k hk
  rw [List.mem_range] at hk
  have hk2 : k < (x.map (matVec C)).length := by simpa using hk
  rw [List.getD_eq_getElem _ _ hk2, List.getElem_map, List.getD_eq_getElem _ _ hk]

/-! ### Concrete inputs used to exercise the theorems -/

/-- Whether a Python computation completed without raising. -/
def pyOk {α : Type} (m : PyM α) : Bool :=
  match m with
  | Except.ok _ => true
  | Except.error _ => false

/-- A critical region whose polyhedron has a 3-column constraint matrix. -/
def cr3 : CriticalRegion :=
  ⟨⟨[[1, 0, 0]], [1], [0, 0, 0], []⟩, [0]⟩

/-- An explicit solution whose first critical region is 3-dimensional. -/
def sol3 : ExplicitSolution := ⟨[cr3], fun _ => 0⟩

/-- A critical region whose polyhedron has a 2-column constraint matrix. -/
def cr2 : CriticalRegion :=
  ⟨⟨[[1, 0], [0, 1]], [1, 1], [0, 0], []⟩, [0]⟩

/-- An explicit solution with one 2-dimensional critical region. -/
def sol2 : ExplicitSolution := ⟨[cr2], fun v => v.sum⟩

/-- A multiparametric program whose feasible set is a triangle. -/
def mpqp0 : MultiParametricQuadraticProgram :=
  ⟨⟨[[1, 0], [0, 1]], [1, 1], [0, 0], [[0, 0], [1, 0], [0, 1]]⟩⟩

/-- One state of the colour stream. -/
def rng0 : ℕ → List ℚ := fun _ => [0, 0, 0]

/-- A different state of the colour stream (as left behind by a previous
call of `np.random.rand`). -/
def rngB : ℕ → List ℚ := fun _ => [1, 0, 0]

/-! ### The claims -/

/-- C1 counterexample: the three time-series functions perform no
dimensionality check at all.  Called on 3-dimensional data (so any
dimensionality-of-2 precondition is unmet) each of them completes without
raising, contradicting the claim that every function of the module performs
exactly one such check and raises a value-constraint error when it is
unmet. -/
theorem claim_C1_counterexample :
    pyOk (plot_input_sequence [[1, 2, 3]] 1 none) = true
    ∧ pyOk (plot_state_trajectory [[1, 2, 3], [4, 5, 6]] 1 none) = true
    ∧ pyOk (plot_output_trajectory [[1, 0, 0], [0, 1, 0], [0, 0, 1]]
        [[1, 2, 3]] 1 none) = true := by
  refine ⟨?_, ?_, ?_⟩ <;> rfl

/-- C1 amended: only the three 2d-plot functions
(`plot_state_space_trajectory`, `plot_partition_explicit_solution`,
`plot_value_function_mpqp`) perform exactly one dimensionality precondition
check, raising a `ValueError` exactly when it is unmet; the three
time-series functions perform none: `plot_input_sequence` and
`plot_state_trajectory` can never raise a `ValueError`, and the only
`ValueError` `plot_output_trajectory` can raise is numpy's shape-mismatch
error from `C.dot` on misaligned operands, not a check of its own. -/
theorem claim_C1_amended :
    (∀ (x : List (List ℚ)) (dim : List ℕ) (text : Bool) (label : Option String),
      (∃ msg, plot_state_space_trajectory x dim text label
        = Except.error (PyErr.valueError msg)) ↔ dim.length ≠ 2)
    ∧ (∀ (sol : ExplicitSolution) (pas : Bool) (rng : ℕ → List ℚ)
        (cr0 : CriticalRegion), sol.critical_regions.head? = some cr0 →
      ((∃ msg, plot_partition_explicit_solution sol pas rng
        = Except.error (PyErr.valueError msg)) ↔ npShape1 cr0.polyhedron.A ≠ 2))
    ∧ (∀ (mpqp : MultiParametricQuadraticProgram) (sol : ExplicitSolution)
        (res : ℕ) (cr0 : CriticalRegion), sol.critical_regions.head? = some cr0 →
      ((plot_value_function_mpqp mpqp sol res
        = Except.error (PyErr.valueError "can plot only 2-dimensional partitions."))
        ↔ npShape1 cr0.polyhedron.A ≠ 2))
    ∧ (∀ (u : List (List ℚ)) (h : ℚ) (bnds : Option (List (List ℚ))) msg,
        plot_input_sequence u h bnds ≠ Except.error (PyErr.valueError msg))
    ∧ (∀ (x : List (List ℚ)) (h : ℚ) (bnds : Option (List (List ℚ))) msg,
        plot_state_trajectory x h bnds ≠ Except.error (PyErr.valueError msg))
    ∧ (∀ (C x : List (List ℚ)) (h : ℚ) (bnds : Option (List (List ℚ))) msg,
        msg ≠ "shapes not aligned" →
        plot_output_trajectory C x h bnds ≠ Except.error (PyErr.valueError msg)) :=
  ⟨fun x dim text label => ssp_ve_iff x dim text label,
   fun sol pas rng cr0 h0 => plot_partition_ve_iff sol pas rng cr0 h0,
   fun mpqp sol res cr0 h0 => plot_value_function_ve_iff mpqp sol res cr0 h0,
   fun u h bnds msg => noVE_plot_input_sequence u h bnds msg,
   fun x h bnds msg => noVE_plot_state_trajectory x h bnds msg,
   fun C x h bnds msg hmsg => output_ve_only_dot C x h bnds msg hmsg⟩

theorem claim_C1_amended_witness :
    ((∃ msg, plot_state_space_trajectory [[1, 2], [3, 4]] [0] false none
      = Except.error (PyErr.valueError msg)))
    ∧ (∃ msg, plot_partition_explicit_solution sol3 false rng0
      = Except.error (PyErr.valueError msg))
    ∧ plot_value_function_mpqp mpqp0 sol3 2
      = Except.error (PyErr.valueError "can plot only 2-dimensional partitions.")
    ∧ plot_input_sequence [[1, 2, 3]] 1 none
      ≠ Except.error (PyErr.valueError "can plot only 2-dimensional trajectories.")
    ∧ plot_state_trajectory [[1, 2, 3], [4, 5, 6]] 1 none
      ≠ Except.error (PyErr.valueError "can plot only 2-dimensional trajectories.")
    ∧ plot_output_trajectory [[1, 0]] [[1, 2]] 1 none
      ≠ Except.error (PyErr.valueError "can plot only 2-dimensional trajectories.") :=
  ⟨claim_C1_amended.1 [[1, 2], [3, 4]] [0] false none |>.mpr (by decide),
   (claim_C1_amended.2.1 sol3 false rng0 cr3 rfl).mpr (by decide),
   (claim_C1_amended.2.2.1 mpqp0 sol3 2 cr3 rfl).mpr (by decide),
   claim_C1_amended.2.2.2.1 [[1, 2, 3]] 1 none _,
   claim_C1_amended.2.2.2.2.1 [[1, 2, 3], [4, 5, 6]] 1 none _,
   claim_C1_amended.2.2.2.2.2 [[1, 0]] [[1, 2]] 1 none _ (by decide)⟩

/-- C2: `plot_state_space_trajectory` raises a `ValueError` if and only if
the length of its `dim` argument is different from 2; in particular for
every call with `len(dim) == 2` the dimensionality check raises no error
(the function can raise no `ValueError` at all then). -/
theorem claim_C2 (x : List (List ℚ)) (dim : List ℕ) (text : Bool)
    (label : Option String) :
    (∃ msg, plot_state_space_trajectory x dim text label
      = Except.error (PyErr.valueError msg)) ↔ dim.length ≠ 2 :=
  ssp_ve_iff x dim text label

/-- C3: `plot_partition_explicit_solution` and `plot_value_function_mpqp`
each raise their dimensionality `ValueError` if and only if the constraint
matrix `A` of the polyhedron of the *first* critical region of the explicit
solution does not have 2 columns — only the first critical region is
inspected (the right-hand side of both equivalences mentions only `cr0`).
For `plot_value_function_mpqp` the `ValueError` is pinned to the message of
the dimensionality check, since Python's `max()`/`min()` on an empty vertex
list of the (externally computed) feasible set would also raise a
`ValueError`, with a different message. -/
theorem claim_C3 (sol : ExplicitSolution) (pas : Bool) (rng : ℕ → List ℚ)
    (mpqp : MultiParametricQuadraticProgram) (res : ℕ) (cr0 : CriticalRegion)
    (h0 : sol.critical_regions.head? = some cr0) :
    ((∃ msg, plot_partition_explicit_solution sol pas rng
      = Except.error (PyErr.valueError msg)) ↔ npShape1 cr0.polyhedron.A ≠ 2)
    ∧ ((plot_value_function_mpqp mpqp sol res
      = Except.error (PyErr.valueError "can plot only 2-dimensional partitions."))
      ↔ npShape1 cr0.polyhedron.A ≠ 2) :=
  ⟨plot_partition_ve_iff sol pas rng cr0 h0,
   plot_value_function_ve_iff mpqp sol res cr0 h0⟩

theorem claim_C3_witness :
    ((∃ msg, plot_partition_explicit_solution sol3 false rng0
      = Except.error (PyErr.valueError msg))
    ∧ ¬(∃ msg, plot_partition_explicit_solution sol2 false rng0
      = Except.error (PyErr.valueError msg))) :=
  ⟨(claim_C3 sol3 false rng0 mpqp0 2 cr3 rfl).1.mpr (by decide),
   fun hc => ((claim_C3 sol2 false rng0 mpqp0 2 cr2 rfl).1.mp hc) (by decide)⟩

/-- C4: on well-formed inputs, `plot_input_sequence` sets every subplot's
x-limits to `(0, N*h)` with `N = len(u)` and the ylabel of subplot `i` to
`u_{i+1}`; `plot_state_trajectory` sets every subplot's x-limits to
`(0, N*h)` with `N = len(x) - 1` and the ylabel of subplot `i` to
`x_{i+1}`; both end with the xlabel `t`.  `plot_state_space_trajectory`
labels its axes `x_{dim[0]+1}` and `x_{dim[1]+1}`. -/
theorem claim_C4
    (u0 : List ℚ) (urest : List (List ℚ)) (hu : ℚ)
    (ubnds : Option (List (List ℚ)))
    (x0 : List ℚ) (xrest : List (List ℚ)) (hx : ℚ)
    (xbnds : Option (List (List ℚ)))
    (s0 : List ℚ) (srest : List (List ℚ)) (d0 d1 : ℕ) (text : Bool)
    (label : Option String)
    (hurow : ∀ row ∈ u0 :: urest, u0.length ≤ row.length)
    (hub : BoundsWF ubnds u0.length)
    (hxrow : ∀ row ∈ x0 :: xrest, x0.length ≤ row.length)
    (hxb : BoundsWF xbnds x0.length)
    (hsrow : ∀ row ∈ s0 :: srest,
      d0 < row.length ∧ d1 < row.length ∧ (text = true → 2 ≤ row.length)) :
    (∃ tr, plot_input_sequence (u0 :: urest) hu ubnds = Except.ok tr
      ∧ tr.filterMap xlimOf
        = List.replicate u0.length (0, ((u0 :: urest).length : ℚ) * hu)
      ∧ tr.filterMap ylabelOf
        = (List.range u0.length).map
            (fun i => "$u_\x7b" ++ toString (i + 1) ++ "\x7d$")
      ∧ tr.getLast? = some (PlotEvent.xlabelEv "$t$"))
    ∧ (∃ tr, plot_state_trajectory (x0 :: xrest) hx xbnds = Except.ok tr
      ∧ tr.filterMap xlimOf
        = List.replicate x0.length (0, (((x0 :: xrest).length - 1 : ℕ) : ℚ) * hx)
      ∧ tr.filterMap ylabelOf
        = (List.range x0.length).map
            (fun i => "$x_\x7b" ++ toString (i + 1) ++ "\x7d$")
      ∧ tr.getLast? = some (PlotEvent.xlabelEv "$t$"))
    ∧ (∃ tr, plot_state_space_trajectory (s0 :: srest) [d0, d1] text label
        = Except.ok tr
      ∧ tr.filterMap xlabelOf = ["$x_\x7b" ++ toString (d0 + 1) ++ "\x7d$"]
      ∧ tr.filterMap ylabelOf = ["$x_\x7b" ++ toString (d1 + 1) ++ "\x7d$"]) := by
  refine ⟨⟨inputTrace (u0 :: urest) hu ubnds,
      plot_input_sequence_ok u0 urest hu ubnds hurow hub, ?_, ?_, ?_⟩,
    ⟨stateTrace (x0 :: xrest) hx xbnds,
      plot_state_trajectory_ok x0 xrest hx xbnds hxrow hxb, ?_, ?_, ?_⟩,
    ⟨sspTrace (s0 :: srest) d0 d1 text label,
      plot_state_space_trajectory_ok s0 srest d0 d1 text label hsrow, ?_, ?_⟩⟩
  · simpa only [List.getD_cons_zero] using inputTrace_xlim (u0 :: urest) hu ubnds
  · simpa only [List.getD_cons_zero] using inputTrace_ylabel (u0 :: urest) hu ubnds
  · exact inputTrace_last (u0 :: urest) hu ubnds
  · simpa only [List.getD_cons_zero] using stateTrace_xlim (x0 :: xrest) hx xbnds
  · simpa only [List.getD_cons_zero] using stateTrace_ylabel (x0 :: xrest) hx xbnds
  · exact stateTrace_last (x0 :: xrest) hx xbnds
  · exact (sspTrace_labels (s0 :: srest) d0 d1 text label).1
  · exact (sspTrace_labels (s0 :: srest) d0 d1 text label).2

theorem claim_C4_witness :
    ∃ tr, plot_input_sequence [[1], [2]] 1 none = Except.ok tr
      ∧ tr.filterMap xlimOf = List.replicate 1 (0, (2 : ℚ) * 1)
      ∧ tr.filterMap ylabelOf
        = (List.range 1).map (fun i => "$u_\x7b" ++ toString (i + 1) ++ "\x7d$")
      ∧ tr.getLast? = some (PlotEvent.xlabelEv "$t$") :=
  (claim_C4 [1] [[2]] 1 none [1] [[2]] 1 none [1, 2] [] 0 1 false none
    (by decide) (by simp [BoundsWF]) (by decide) (by simp [BoundsWF])
    (by decide)).1

/-- C5: in the three time-series functions, on well-formed inputs with at
least one plotted component and a non-empty bounds list when one is given,
the trace contains exactly one legend (the one of the first subplot), with
two entries when the bounds argument is not `None` and one entry when it
is. -/
theorem claim_C5
    (u0 : List ℚ) (urest : List (List ℚ)) (hu : ℚ)
    (ubnds : Option (List (List ℚ)))
    (x0 : List ℚ) (xrest : List (List ℚ)) (hx : ℚ)
    (xbnds : Option (List (List ℚ)))
    (C x : List (List ℚ)) (hy : ℚ) (ybnds : Option (List (List ℚ)))
    (hu0 : 0 < u0.length)
    (hurow : ∀ row ∈ u0 :: urest, u0.length ≤ row.length)
    (hub : BoundsWF ubnds u0.length)
    (hx0 : 0 < x0.length)
    (hxrow : ∀ row ∈ x0 :: xrest, x0.length ≤ row.length)
    (hxb : BoundsWF xbnds x0.length)
    (hC : 0 < C.length)
    (hdot : ∀ v ∈ x, ∀ row ∈ C, row.length = v.length)
    (hyb : BoundsWF ybnds C.length) :
    (∃ tr, plot_input_sequence (u0 :: urest) hu ubnds = Except.ok tr
      ∧ tr.filterMap legendOf
        = [if ubnds.isSome then ["Optimal control", "Control bounds"]
           else ["Optimal control"]])
    ∧ (∃ tr, plot_state_trajectory (x0 :: xrest) hx xbnds = Except.ok tr
      ∧ tr.filterMap legendOf
        = [if xbnds.isSome then ["Optimal trajectory", "State bounds"]
           else ["Optimal trajectory"]])
    ∧ (∃ tr, plot_output_trajectory C x hy ybnds = Except.ok tr
      ∧ tr.filterMap legendOf
        = [if ybnds.isSome then ["Optimal trajectory", "Output bounds"]
           else ["Optimal trajectory"]]) := by
  refine ⟨⟨inputTrace (u0 :: urest) hu ubnds,
      plot_input_sequence_ok u0 urest hu ubnds hurow hub, ?_⟩,
    ⟨stateTrace (x0 :: xrest) hx xbnds,
      plot_state_trajectory_ok x0 xrest hx xbnds hxrow hxb, ?_⟩,
    ⟨outputTrace C x hy ybnds,
      plot_output_trajectory_ok C x hy ybnds hdot hyb, ?_⟩⟩
  · simpa only [List.getD_cons_zero]
      using inputTrace_legend (u0 :: urest) hu ubnds (by simpa using hu0)
  · simpa only [List.getD_cons_zero]
      using stateTrace_legend (x0 :: xrest) hx xbnds (by simpa using hx0)
  · exact outputTrace_legend C x hy ybnds hC

theorem claim_C5_witness :
    (∃ tr, plot_input_sequence [[1], [2]] 1 (some [[0], [5]]) = Except.ok tr
      ∧ tr.filterMap legendOf
        = [if (some [[(0 : ℚ)], [5]]).isSome then ["Optimal control", "Control bounds"]
           else ["Optimal control"]]) :=
  (claim_C5 [1] [[2]] 1 (some [[0], [5]]) [1] [[2]] 1 none [[1]] [[2]] 1 none
    (by decide) (by decide) (by decide) (by decide) (by decide)
    (by simp [BoundsWF]) (by decide) (by decide) (by simp [BoundsWF])).1

/-- C6: `plot_output_trajectory` computes the output trajectory as the
linear transform `y[k] = C.dot(x[k])`, produces exactly `C.shape[0]`
subplots, and in subplot `i` plots the series `(C.dot(x[k]))[i]` for
`k = 0 .. len(x)-1` against the time axis with points `k*h`. -/
theorem claim_C6 (C x : List (List ℚ)) (h : ℚ)
    (ybnds : Option (List (List ℚ)))
    (hdot : ∀ v ∈ x, ∀ row ∈ C, row.length = v.length)
    (hyb : BoundsWF ybnds C.length) :
    ∃ tr, plot_output_trajectory C x h ybnds = Except.ok tr
      ∧ tr.filterMap subplotOf
        = (List.range C.length).map (fun i => (C.length, 1, i + 1))
      ∧ tr.filterMap lineBOf
        = (List.range C.length).map (fun i =>
            ((List.range x.length).map (fun k => (k : ℚ) * h),
             (List.range x.length).map
               (fun k => (matVec C (x.getD k [])).getD i 0))) := by
  refine ⟨outputTrace C x h ybnds,
    plot_output_trajectory_ok C x h ybnds hdot hyb,
    outputTrace_subplot C x h ybnds, ?_⟩
  have h1 := outputTrace_lineB C x h ybnds
  simp only [linspace_grid_int, seqAt_map_matVec] at h1
  exact h1

theorem claim_C6_witness :
    ∃ tr, plot_output_trajectory [[1, 0], [1, 1]] [[1, 2], [3, 4]] 1 none
        = Except.ok tr
      ∧ tr.filterMap subplotOf
        = (List.range 2).map (fun i => (2, 1, i + 1))
      ∧ tr.filterMap lineBOf
        = (List.range 2).map (fun i =>
            ((List.range 2).map (fun k => (k : ℚ) * 1),
             (List.range 2).map (fun k =>
               (matVec [[1, 0], [1, 1]] ([[(1 : ℚ), 2], [3, 4]].getD k [])).getD i 0))) :=
  claim_C6 [[1, 0], [1, 1]] [[1, 2], [3, 4]] 1 none (by decide)
    (by simp [BoundsWF])

/-- C7 counterexample: `plot_partition_explicit_solution` draws its
facecolors from the global numpy random state, which advances between
calls: two calls on the same solution with the same keyword arguments but
different states of the generator issue different drawing calls, so the
claimed statelessness (identical facecolors for each critical region) is
false. -/
theorem claim_C7_counterexample :
    plot_partition_explicit_solution sol2 false rng0
      ≠ plot_partition_explicit_solution sol2 false rngB := by
  decide

/-- C7 amended: every function of the module is a deterministic function
of its explicit arguments, except that `plot_partition_explicit_solution`
also consumes the global numpy random state for the facecolors: two calls
on the same `ExplicitSolution` with the same keyword arguments issue the
same sequence of drawing calls with identical arguments *up to the
facecolor* of each critical region, whatever the two states of the
generator. -/
theorem claim_C7_amended (sol : ExplicitSolution) (pas : Bool)
    (rnga rngb : ℕ → List ℚ) :
    Except.map (List.map stripColor)
      (plot_partition_explicit_solution sol pas rnga)
      = Except.map (List.map stripColor)
        (plot_partition_explicit_solution sol pas rngb) :=
  plot_partition_strip sol pas rnga rngb

/-- C8: for every non-empty well-formed input sequence `u` of length `N`
with time step `h`, `plot_input_sequence` builds the time axis as
`linspace(0, N*h, N+1)`, which is exactly the `N+1` points
`0, h, ..., N*h` spaced by `h`, and the stepped series of component `i`
has the `N+1` values `u[0][i], u[0][i], u[1][i], ..., u[N-1][i]` (the
first value duplicated). -/
theorem claim_C8 (u0 : List ℚ) (urest : List (List ℚ)) (hu : ℚ)
    (ubnds : Option (List (List ℚ)))
    (hurow : ∀ row ∈ u0 :: urest, u0.length ≤ row.length)
    (hub : BoundsWF ubnds u0.length) :
    ∃ tr, plot_input_sequence (u0 :: urest) hu ubnds = Except.ok tr
      ∧ tr.filterMap stepBOf
        = (List.range u0.length).map (fun i =>
            ((List.range ((u0 :: urest).length + 1)).map
               (fun k => (k : ℚ) * hu),
             entry (u0 :: urest) 0 i
               :: (List.range (u0 :: urest).length).map
                    (fun k => entry (u0 :: urest) k i))) := by
  refine ⟨inputTrace (u0 :: urest) hu ubnds,
    plot_input_sequence_ok u0 urest hu ubnds hurow hub, ?_⟩
  have h1 := inputTrace_stepB (u0 :: urest) hu ubnds
  simp only [linspace_grid, seqAt, List.getD_cons_zero] at h1
  exact h1

theorem claim_C8_witness :
    ∃ tr, plot_input_sequence [[1], [2]] 1 none = Except.ok tr
      ∧ tr.filterMap stepBOf
        = (List.range 1).map (fun i =>
            ((List.range 3).map (fun k => (k : ℚ) * 1),
             entry [[1], [2]] 0 i
               :: (List.range 2).map (fun k => entry [[(1 : ℚ)], [2]] k i))) :=
  claim_C8 [1] [[2]] 1 none (by decide) (by simp [BoundsWF])

/-- C9: with `text=True`, `plot_state_space_trajectory` places the `$x(t)$`
annotation of every time index `t` at `(x[t][0], x[t][1])` — components 0
and 1 of the state vector — regardless of the components selected by the
`dim` argument. -/
theorem claim_C9 (s0 : List ℚ) (srest : List (List ℚ)) (d0 d1 : ℕ)
    (label : Option String)
    (hrow : ∀ row ∈ s0 :: srest,
      d0 < row.length ∧ d1 < row.length ∧ 2 ≤ row.length) :
    ∃ tr, plot_state_space_trajectory (s0 :: srest) [d0, d1] true label
        = Except.ok tr
      ∧ tr.filterMap textOf
        = (List.range (s0 :: srest).length).map (fun t =>
            (entry (s0 :: srest) t 0, entry (s0 :: srest) t 1,
             "$x(" ++ toString t ++ ")$")) :=
  ⟨sspTrace (s0 :: srest) d0 d1 true label,
   plot_state_space_trajectory_ok s0 srest d0 d1 true label
     (fun row hr => ⟨(hrow row hr).1, (hrow row hr).2.1,
       fun _ => (hrow row hr).2.2⟩),
   sspTrace_text (s0 :: srest) d0 d1 label⟩

theorem claim_C9_witness :
    ∃ tr, plot_state_space_trajectory [[1, 2], [3, 4]] [1, 0] true none
        = Except.ok tr
      ∧ tr.filterMap textOf
        = (List.range 2).map (fun t =>
            (entry [[1, 2], [3, 4]] t 0, entry [[(1 : ℚ), 2], [3, 4]] t 1,
             "$x(" ++ toString t ++ ")$")) :=
  claim_C9 [1, 2] [[3, 4]] 1 0 none (by decide)

/-- C10: a bounds argument that is an empty list (not `None`) never assigns
`bound_plot`, so the legend branch of the first subplot reads an unassigned
local variable and each of the three time-series functions fails with an
`UnboundLocalError` instead of plotting a legend. -/
theorem claim_C10
    (u0 : List ℚ) (urest : List (List ℚ)) (hu : ℚ)
    (x0 : List ℚ) (xrest : List (List ℚ)) (hx : ℚ)
    (C x : List (List ℚ)) (hy : ℚ)
    (hurow : ∀ row ∈ u0 :: urest, 0 < row.length)
    (hxrow : ∀ row ∈ x0 :: xrest, 0 < row.length)
    (hCpos : 0 < C.length)
    (hdot : ∀ v ∈ x, ∀ row ∈ C, row.length = v.length) :
    plot_input_sequence (u0 :: urest) hu (some [])
      = Except.error (PyErr.unboundLocal "bound_plot")
    ∧ plot_state_trajectory (x0 :: xrest) hx (some [])
      = Except.error (PyErr.unboundLocal "bound_plot")
    ∧ plot_output_trajectory C x hy (some [])
      = Except.error (PyErr.unboundLocal "bound_plot") :=
  ⟨plot_input_sequence_bounds_empty u0 urest hu hurow,
   plot_state_trajectory_bounds_empty x0 xrest hx hxrow,
   plot_output_trajectory_bounds_empty C x hy hCpos hdot⟩

theorem claim_C10_witness :
    plot_input_sequence [[1], [2]] 1 (some [])
      = Except.error (PyErr.unboundLocal "bound_plot")
    ∧ plot_state_trajectory [[1], [2]] 1 (some [])
      = Except.error (PyErr.unboundLocal "bound_plot")
    ∧ plot_output_trajectory [[1, 0]] [[1, 2]] 1 (some [])
      = Except.error (PyErr.unboundLocal "bound_plot") :=
  claim_C10 [1] [[2]] 1 [1] [[2]] 1 [[1, 0]] [[1, 2]] 1
    (by decide) (by decide) (by decide) (by decide)

end PympcPlot
